import Mathlib

/-
Verification of the RAID-5 volume manager of src/solution.cpp against its
specification.

Modelling conventions:
* C `int` values (indices, counters, status codes, metadata fields) are
  modelled as `Int`.  All divisions and remainders performed by the embedded
  code run on non-negative operands, where C truncating division agrees with
  the Euclidean `/` and `%` of `Int`/`Nat` used here.
* A sector holds SECTOR_SIZE = 8 bytes, viewed by the code as two 32-bit
  `int` words (INT_SECTOR_BUFFER).  Each word is modelled as its 32-bit
  pattern, a `Nat`; a signed `int` value stored in a word goes through the
  two's-complement encoding `encI` / decoding `decI`.
* The block-device layer (`TBlkDev`'s function pointers) is modelled by a
  `DiskState`: per-device contents plus per-device read/write health flags,
  which is exactly the fault shape every claim quantifies over.  Every device
  call is appended to an operation trace so that claims about "no device
  operation is issued" are expressible.
-/

/-! ### Compile-time constants (solution.cpp lines 13-26) -/

def SECTOR_SIZE : Int := 8

def MAX_RAID_DEVICES : Int := 16

def MIN_RAID_DEVICES : Int := 3

def MAX_DEVICE_SECTORS : Int := 1024 * 1024 * 2

def MIN_DEVICE_SECTORS : Int := 1 * 1024 * 2

def RAID_STOPPED : Int := 0

def RAID_OK : Int := 1

def RAID_DEGRADED : Int := 2

def RAID_FAILED : Int := 3

/-! ### Sectors and words -/

/-- One 8-byte sector, viewed as the two 32-bit words of INT_SECTOR_BUFFER
(SECTOR_SIZE / sizeof(int) = 2).  Word index 0 is FAILED_DRIVE_INDEX, word
index 1 is TIMESTAMP_INDEX when the sector carries metadata. -/
structure Sector where
  w0 : Nat
  w1 : Nat
deriving DecidableEq, Repr

def zeroSector : Sector := ⟨0, 0⟩

/-- xor_int_buffers (solution.cpp lines 609-613): word-wise xor of two
sector buffers. -/
def xor_int_buffers (a b : Sector) : Sector := ⟨a.w0 ^^^ b.w0, a.w1 ^^^ b.w1⟩

/-- Two's-complement encoding of a C `int` value into a 32-bit word. -/
def encI (x : Int) : Nat := (x % 4294967296).toNat

/-- Reading a 32-bit word back as a signed C `int`. -/
def decI (n : Nat) : Int :=
  if n < 2147483648 then (n : Int) else (n : Int) - 4294967296

/-- Contents of a metadata sector: buffer[FAILED_DRIVE_INDEX = 0] holds the
failed-drive field and buffer[TIMESTAMP_INDEX = 1] the timestamp, the rest of
the sector is zero-filled (there is no rest: 2 ints fill the 8 bytes). -/
def metaSector (failed timestamp : Int) : Sector := ⟨encI failed, encI timestamp⟩

/-! ### The block-device interface -/

/-- TBlkDev geometry (solution.cpp lines 36-43); the two function pointers are
modelled by the `DiskState` the operations below act on. -/
structure TBlkDev where
  m_Devices : Int
  m_Sectors : Int
deriving DecidableEq, Repr

/-- State of the underlying devices: sector contents, per-device health of
the read and write paths, and a log of every issued operation (an entry
(isWrite, device, sector) per call). -/
structure DiskState where
  contents : Int → Int → Sector
  readOk : Int → Bool
  writeOk : Int → Bool
  trace : List (Bool × Int × Int)

/-- One call through the TBlkDev read pointer for a single sector.  Returns
the sector on success (return value 1 in C) and nothing on failure. -/
def devRead (dsk : DiskState) (dev sec : Int) : Option Sector × DiskState :=
  if dsk.readOk dev then
    (some (dsk.contents dev sec), { dsk with trace := (false, dev, sec) :: dsk.trace })
  else
    (none, { dsk with trace := (false, dev, sec) :: dsk.trace })

/-- One call through the TBlkDev write pointer for a single sector. -/
def devWrite (dsk : DiskState) (dev sec : Int) (v : Sector) : Bool × DiskState :=
  if dsk.writeOk dev then
    (true,
     { dsk with
        contents := fun d s => if d = dev ∧ s = sec then v else dsk.contents d s,
        trace := (true, dev, sec) :: dsk.trace })
  else
    (false, { dsk with trace := (true, dev, sec) :: dsk.trace })

/-! ### The volume state -/

/-- In-memory state of CRaidVolume (solution.cpp lines 146-156).  The two
fields of m_metadata are inlined as m_failed_drive_i and m_timestamp. -/
structure CRaidVolume where
  m_dev : Option TBlkDev
  m_metadata_sector : Int
  m_failed_drive_i : Int
  m_timestamp : Int
  m_status : Int
  m_raid_size : Int
  m_buffer : Sector
deriving DecidableEq, Repr

/-- Dereferencing m_dev->m_Devices; only reached on code paths where m_dev
is non-null. -/
def CRaidVolume.devices (vol : CRaidVolume) : Int :=
  (vol.m_dev.getD ⟨0, 0⟩).m_Devices

/-- Dereferencing m_dev->m_Sectors; only reached on code paths where m_dev
is non-null. -/
def CRaidVolume.sectors (vol : CRaidVolume) : Int :=
  (vol.m_dev.getD ⟨0, 0⟩).m_Sectors

/-- validate_t_blk_dev (solution.cpp lines 573-583).  The two function
pointers are always non-null in this model. -/
def validate_t_blk_dev (dev : TBlkDev) : Bool :=
  if dev.m_Devices < 3 then false
  else if dev.m_Devices > MAX_RAID_DEVICES then false
  else if dev.m_Sectors < MIN_DEVICE_SECTORS then false
  else if dev.m_Sectors > MAX_DEVICE_SECTORS then false
  else true

/-- clear_raid_volume_data (solution.cpp lines 597-607): frees m_dev and
resets every member except the scratch buffer m_buffer; m_metadata is reset
to the CDriveMetadata defaults (failed drive -1, timestamp 1). -/
def clear_raid_volume_data (vol : CRaidVolume) : CRaidVolume :=
  { vol with
      m_dev := none
      m_metadata_sector := 0
      m_failed_drive_i := -1
      m_timestamp := 1
      m_status := RAID_STOPPED
      m_raid_size := 0 }

/-! ### Geometry -/

/-- raid_sector_to_physical (solution.cpp lines 585-595): maps a logical RAID
sector to (drive index, drive sector index, parity drive index).  All claims
apply it to a non-negative raid_sector with D at least 3, where the Euclidean
`/` and `%` below coincide with C's truncating division. -/
def raid_sector_to_physical (D : Int) (raid_sector : Int) : Int × Int × Int :=
  let md := D
  let skipped_parities := 1 + raid_sector / md + raid_sector / (md * (md - 1))
  let phys_sector := raid_sector + skipped_parities
  (phys_sector % md, phys_sector / md, (phys_sector / md) % md)

/-! ### Parity helpers (solution.cpp lines 615-658) -/

/-- Loop body of xor_read_without_sector: iterates drive_i over 0..D-1,
skipping dead_drive_i, reading each drive's sector sector_i and xor-ing it
into out; returns the first failing drive index, or -1 with the xor. -/
def xor_read_loop (dsk : DiskState) (D : Nat) (dead_drive_i sector_i : Int)
    (drive_i : Nat) (out : Sector) : Int × Sector × DiskState :=
  if h : drive_i < D then
    if (drive_i : Int) = dead_drive_i then
      xor_read_loop dsk D dead_drive_i sector_i (drive_i + 1) out
    else
      match devRead dsk drive_i sector_i with
      | (none, dsk') => ((drive_i : Int), out, dsk')
      | (some v, dsk') =>
          xor_read_loop dsk' D dead_drive_i sector_i (drive_i + 1) (xor_int_buffers out v)
  else (-1, out, dsk)
termination_by D - drive_i

/-- xor_read_without_sector (solution.cpp lines 615-632). -/
def xor_read_without_sector (vol : CRaidVolume) (dsk : DiskState)
    (dead_drive_i sector_i : Int) : Int × Sector × DiskState :=
  xor_read_loop dsk vol.devices.toNat dead_drive_i sector_i 0 zeroSector

/-- Loop body of xor_get_parity_supplement_dead_sector: like xor_read_loop,
but the parity drive is skipped and the dead drive's sector is substituted by
the supplied buffer instead of being read. -/
def xor_parity_loop (dsk : DiskState) (D : Nat) (parity_drive_i dead_drive_i : Int)
    (supplement : Sector) (sector_i : Int) (drive_i : Nat) (out : Sector) :
    Int × Sector × DiskState :=
  if h : drive_i < D then
    if (drive_i : Int) = parity_drive_i then
      xor_parity_loop dsk D parity_drive_i dead_drive_i supplement sector_i (drive_i + 1) out
    else if (drive_i : Int) = dead_drive_i then
      xor_parity_loop dsk D parity_drive_i dead_drive_i supplement sector_i (drive_i + 1)
        (xor_int_buffers out supplement)
    else
      match devRead dsk drive_i sector_i with
      | (none, dsk') => ((drive_i : Int), out, dsk')
      | (some v, dsk') =>
          xor_parity_loop dsk' D parity_drive_i dead_drive_i supplement sector_i (drive_i + 1)
            (xor_int_buffers out v)
  else (-1, out, dsk)
termination_by D - drive_i

/-- xor_get_parity_supplement_dead_sector (solution.cpp lines 634-658). -/
def xor_get_parity_supplement_dead_sector (vol : CRaidVolume) (dsk : DiskState)
    (parity_drive_i dead_drive_i : Int) (supplement : Sector) (sector_i : Int) :
    Int × Sector × DiskState :=
  xor_parity_loop dsk vol.devices.toNat parity_drive_i dead_drive_i supplement sector_i 0
    zeroSector

/-! ### create (solution.cpp lines 167-189) -/

/-- Metadata-initialisation loop of create: writes the default metadata
sector to devices 0..D-1, stopping at the first failed write. -/
def createLoop (dsk : DiskState) (D : Nat) (metadata_sector_i : Int) (dev_i : Nat) :
    Bool × DiskState :=
  if h : dev_i < D then
    match devWrite dsk dev_i metadata_sector_i (metaSector (-1) 0) with
    | (false, dsk') => (false, dsk')
    | (true, dsk') => createLoop dsk' D metadata_sector_i (dev_i + 1)
  else (true, dsk)
termination_by D - dev_i

/-- CRaidVolume::create.  The compile-time check SECTOR_SIZE < sizeof
(CDriveMetadata) is 8 < 8 and never fires; the initial buffer carries
failed drive -1 and timestamp 0. -/
def CRaidVolume.create (dev : TBlkDev) (dsk : DiskState) : Bool × DiskState :=
  if validate_t_blk_dev dev = false then (false, dsk)
  else createLoop dsk dev.m_Devices.toNat (dev.m_Sectors - 1) 0

/-! ### start (solution.cpp lines 191-296) -/

/-- Pointwise array update used for the timestamps[] and failed_drives[]
stack arrays of start. -/
def updArr (f : Int → Int) (i : Int) (x : Int) : Int → Int :=
  fun j => if j = i then x else f j

/-- Metadata quorum-read loop of start (lines 223-231): reads the metadata
sector of devices 0,1,2, recording timestamp and failed-drive votes, the
number of failed reads, and the last failing device.  The arrays start out
as the uninitialised stack contents, modelled as all-zero; a slot is only
consulted after it was written on every path the code takes. -/
def metaReadLoop (dsk : DiskState) (metadata_sector : Int) (dev_i : Nat)
    (ts fs : Int → Int) (read_failed_cnt : Nat) (read_failed_drive : Int) :
    (Int → Int) × (Int → Int) × Nat × Int × DiskState :=
  if h : dev_i < 3 then
    match devRead dsk dev_i metadata_sector with
    | (none, dsk') =>
        metaReadLoop dsk' metadata_sector (dev_i + 1) ts fs (read_failed_cnt + 1)
          (dev_i : Int)
    | (some v, dsk') =>
        metaReadLoop dsk' metadata_sector (dev_i + 1)
          (updArr ts (dev_i : Int) (decI v.w1)) (updArr fs (dev_i : Int) (decI v.w0))
          read_failed_cnt read_failed_drive
  else (ts, fs, read_failed_cnt, read_failed_drive, dsk)
termination_by 3 - dev_i

/-- CRaidVolume::start: copies the device descriptor, assumes RAID_OK,
computes the raid size and metadata sector, then decides the assembled
status from the three metadata votes. -/
def CRaidVolume.start (vol : CRaidVolume) (dev : TBlkDev) (dsk : DiskState) :
    Int × CRaidVolume × DiskState :=
  if vol.m_dev.isSome ∨ validate_t_blk_dev dev = false then (RAID_FAILED, vol, dsk)
  else
    let vol1 : CRaidVolume :=
      { vol with
          m_dev := some dev
          m_status := RAID_OK
          m_raid_size := dev.m_Devices * (dev.m_Sectors - 1) - (dev.m_Sectors - 1)
          m_metadata_sector := dev.m_Sectors - 1
          m_failed_drive_i := -1
          m_timestamp := decI vol.m_buffer.w1 }
    match metaReadLoop dsk (dev.m_Sectors - 1) 0 (fun _ => 0) (fun _ => 0) 0 (-1) with
    | (ts, fs, read_failed_cnt, read_failed_drive, dsk1) =>
      if read_failed_cnt = 1 then
        let other_a := (read_failed_drive + 1) % 3
        let other_b := (read_failed_drive + 2) % 3
        if ts other_a ≠ ts other_b then
          (RAID_FAILED, { vol1 with m_status := RAID_FAILED }, dsk1)
        else if fs other_a < 0 then
          (RAID_DEGRADED,
           { vol1 with
              m_status := RAID_DEGRADED
              m_failed_drive_i := read_failed_drive
              m_timestamp := ts other_a }, dsk1)
        else (RAID_FAILED, { vol1 with m_status := RAID_FAILED }, dsk1)
      else if read_failed_cnt = 0 then
        if ts 0 ≠ ts 1 ∧ ts 1 ≠ ts 2 ∧ ts 0 ≠ ts 2 then
          (RAID_FAILED, { vol1 with m_status := RAID_FAILED }, dsk1)
        else if ts 0 = ts 1 ∧ ts 1 = ts 2 then
          if fs 0 = -1 then
            (RAID_OK,
             { vol1 with
                m_timestamp := ts 0
                m_failed_drive_i := fs 0
                m_status := RAID_OK }, dsk1)
          else
            (RAID_DEGRADED,
             { vol1 with
                m_timestamp := ts 0
                m_failed_drive_i := fs 0
                m_status := RAID_DEGRADED }, dsk1)
        else if ts 0 = ts 1 ∧ fs 0 = 2 then
          (RAID_DEGRADED,
           { vol1 with
              m_timestamp := ts 0
              m_failed_drive_i := 2
              m_status := RAID_DEGRADED }, dsk1)
        else if ts 0 = ts 2 ∧ fs 0 = 1 then
          (RAID_DEGRADED,
           { vol1 with
              m_timestamp := ts 0
              m_failed_drive_i := 1
              m_status := RAID_DEGRADED }, dsk1)
        else if ts 1 = ts 2 ∧ fs 1 = 0 then
          (RAID_DEGRADED,
           { vol1 with
              m_timestamp := ts 1
              m_failed_drive_i := 0
              m_status := RAID_DEGRADED }, dsk1)
        else (RAID_FAILED, { vol1 with m_status := RAID_FAILED }, dsk1)
      else (RAID_FAILED, { vol1 with m_status := RAID_FAILED }, dsk1)

/-! ### stop (solution.cpp lines 298-339) -/

/-- Well-founded rank of the volume status inside the stop loop: each restart
of the loop strictly escalates the status. -/
def stopRank (status : Int) : Nat :=
  if status = RAID_OK then 2 else if status = RAID_DEGRADED then 1 else 0

/-- Metadata persist loop of stop (lines 311-333).  On a failed write to a
device other than the known failed drive the loop escalates the status,
assigns dev_i = 0 and continues; the for-increment of the continue makes the
restarted sweep begin at device 1, not device 0. -/
def stopLoop (vol : CRaidVolume) (dsk : DiskState) (buf : Sector) (dev_i : Int) :
    CRaidVolume × DiskState × Sector :=
  if h : dev_i < vol.devices then
    match devWrite dsk dev_i vol.m_metadata_sector buf with
    | (true, dsk') => stopLoop vol dsk' buf (dev_i + 1)
    | (false, dsk') =>
      if vol.m_failed_drive_i = dev_i then stopLoop vol dsk' buf (dev_i + 1)
      else if hok : vol.m_status = RAID_OK then
        stopLoop
          { vol with m_failed_drive_i := dev_i, m_status := RAID_DEGRADED }
          dsk' ⟨encI dev_i, buf.w1⟩ (0 + 1)
      else if hdg : vol.m_status = RAID_DEGRADED then
        stopLoop { vol with m_status := RAID_FAILED } dsk' buf (0 + 1)
      else stopLoop vol dsk' buf (dev_i + 1)
  else (vol, dsk, buf)
termination_by stopRank vol.m_status * ((vol.devices).toNat + 2) + (vol.devices - dev_i).toNat
decreasing_by
  all_goals
    simp_all [stopRank, RAID_OK, RAID_DEGRADED, RAID_FAILED, RAID_STOPPED,
      CRaidVolume.devices]
  all_goals omega

/-- CRaidVolume::stop: returns immediately when stopped or failed, otherwise
increments the timestamp, loads the metadata buffer and persists it to all
drives, then releases the in-memory state; always returns RAID_STOPPED. -/
def CRaidVolume.stop (vol : CRaidVolume) (dsk : DiskState) :
    Int × CRaidVolume × DiskState :=
  if vol.m_status = RAID_STOPPED ∨ vol.m_status = RAID_FAILED then
    (RAID_STOPPED, { vol with m_status := RAID_STOPPED }, dsk)
  else
    let vol1 := { vol with m_timestamp := vol.m_timestamp + 1 }
    let buf := metaSector vol1.m_failed_drive_i vol1.m_timestamp
    match stopLoop { vol1 with m_buffer := buf } dsk buf 0 with
    | (vol2, dsk', buf') =>
      (RAID_STOPPED, clear_raid_volume_data { vol2 with m_buffer := buf' }, dsk')

/-! ### resync (solution.cpp lines 341-387) -/

/-- Data-rebuild loop of resync (lines 347-361): for every non-metadata
sector, reconstruct the failed drive's sector from the xor of the others and
write it back; an inner read failure yields RAID_FAILED, a write failure to
the replaced drive yields RAID_DEGRADED. -/
def resyncDataLoop (vol : CRaidVolume) (dsk : DiskState) (sector_i : Int) :
    Option (Int × CRaidVolume) × DiskState :=
  if h : sector_i < vol.sectors - 1 then
    match xor_read_without_sector vol dsk vol.m_failed_drive_i sector_i with
    | (r, restore_buffer, dsk1) =>
      if 0 ≤ r then (some (RAID_FAILED, { vol with m_status := RAID_FAILED }), dsk1)
      else
        match devWrite dsk1 vol.m_failed_drive_i sector_i restore_buffer with
        | (false, dsk2) =>
            (some (RAID_DEGRADED, { vol with m_status := RAID_DEGRADED }), dsk2)
        | (true, dsk2) => resyncDataLoop vol dsk2 (sector_i + 1)
  else (none, dsk)
termination_by (vol.sectors - 1 - sector_i).toNat

/-- Metadata sweep of resync over the non-replaced drives (lines 374-382). -/
def resyncMetaLoop (vol : CRaidVolume) (dsk : DiskState) (buf : Sector) (dev_i : Int) :
    Option (Int × CRaidVolume) × DiskState :=
  if h : dev_i < vol.devices then
    if dev_i = vol.m_failed_drive_i then resyncMetaLoop vol dsk buf (dev_i + 1)
    else
      match devWrite dsk dev_i vol.m_metadata_sector buf with
      | (false, dsk1) =>
          (some (RAID_DEGRADED,
                 { vol with m_status := RAID_DEGRADED, m_failed_drive_i := dev_i }), dsk1)
      | (true, dsk1) => resyncMetaLoop vol dsk1 buf (dev_i + 1)
  else (none, dsk)
termination_by (vol.devices - dev_i).toNat

/-- CRaidVolume::resync: no-op unless DEGRADED; rebuilds the failed drive's
data sectors, then persists fresh metadata (failed drive -1, timestamp
unchanged) first to the replaced drive, then to all others. -/
def CRaidVolume.resync (vol : CRaidVolume) (dsk : DiskState) :
    Int × CRaidVolume × DiskState :=
  if vol.m_status = RAID_OK ∨ vol.m_status = RAID_FAILED ∨ vol.m_status = RAID_STOPPED then
    (vol.m_status, vol, dsk)
  else
    match resyncDataLoop vol dsk 0 with
    | (some out, dsk1) => (out.1, out.2, dsk1)
    | (none, dsk1) =>
      let buf := metaSector (-1) vol.m_timestamp
      match devWrite dsk1 vol.m_failed_drive_i vol.m_metadata_sector buf with
      | (false, dsk2) => (RAID_DEGRADED, { vol with m_status := RAID_DEGRADED }, dsk2)
      | (true, dsk2) =>
        match resyncMetaLoop vol dsk2 buf 0 with
        | (some out, dsk3) => (out.1, out.2, dsk3)
        | (none, dsk3) =>
            (RAID_OK, { vol with m_status := RAID_OK, m_failed_drive_i := -1 }, dsk3)

/-! ### read (solution.cpp lines 397-447) -/

/-- Read loop of CRaidVolume::read.  raid_i runs from secNr to secEnd =
secNr + secCnt; each satisfied sector is appended to acc.  A failed direct
read in OK status degrades the volume and retries the same raid_i (the
raid_i-- / continue of line 438); any failure in DEGRADED status fails the
volume and the call. -/
def readLoop (vol : CRaidVolume) (dsk : DiskState) (raid_i secEnd : Int)
    (acc : List Sector) : Bool × CRaidVolume × DiskState × List Sector :=
  if h : raid_i < secEnd then
    if hsz : vol.m_raid_size ≤ raid_i then (false, vol, dsk, acc)
    else
      match raid_sector_to_physical vol.devices raid_i with
      | (drive_i, drive_sector_i, _parity_drive_i) =>
        if vol.m_status = RAID_DEGRADED ∧ vol.m_failed_drive_i = drive_i then
          match xor_read_without_sector vol dsk drive_i drive_sector_i with
          | (r, v, dsk') =>
            if 0 ≤ r then (false, { vol with m_status := RAID_FAILED }, dsk', acc)
            else readLoop vol dsk' (raid_i + 1) secEnd (acc ++ [v])
        else if vol.m_status = RAID_DEGRADED ∧ vol.m_failed_drive_i ≠ drive_i then
          match devRead dsk drive_i drive_sector_i with
          | (none, dsk') => (false, { vol with m_status := RAID_FAILED }, dsk', acc)
          | (some v, dsk') => readLoop vol dsk' (raid_i + 1) secEnd (acc ++ [v])
        else
          match devRead dsk drive_i drive_sector_i with
          | (none, dsk') =>
              readLoop
                { vol with m_status := RAID_DEGRADED, m_failed_drive_i := drive_i }
                dsk' raid_i secEnd acc
          | (some v, dsk') => readLoop vol dsk' (raid_i + 1) secEnd (acc ++ [v])
  else (true, vol, dsk, acc)
termination_by
  2 * (secEnd - raid_i).toNat + (if vol.m_status = RAID_DEGRADED then 0 else 1)
decreasing_by
  all_goals simp_all [RAID_DEGRADED]
  all_goals omega

/-- CRaidVolume::read.  The caller's buffer is modelled by the returned list
of sectors; dataNull models a null data pointer. -/
def CRaidVolume.read (vol : CRaidVolume) (dsk : DiskState) (secNr : Int)
    (secCnt : Int) (dataNull : Bool) : Bool × CRaidVolume × DiskState × List Sector :=
  if dataNull = true ∨ secCnt < 0 ∨ secCnt > vol.m_raid_size - 1 ∨
      vol.m_status = RAID_FAILED then
    (false, vol, dsk, [])
  else readLoop vol dsk secNr (secNr + secCnt) []

/-! ### write (solution.cpp lines 449-571) -/

/-- Write loop of CRaidVolume::write.  The caller's buffer is the payload
list; the data pointer advancing by SECTOR_SIZE at the end of an iteration is
modelled by passing payload.tail to the next iteration, and a retry (raid_i--
/ continue) keeps the payload unchanged. -/
def writeLoop (vol : CRaidVolume) (dsk : DiskState) (raid_i secEnd : Int)
    (payload : List Sector) : Bool × CRaidVolume × DiskState :=
  if h : raid_i < secEnd then
    if hsz : vol.m_raid_size ≤ raid_i then (false, vol, dsk)
    else
      match raid_sector_to_physical vol.devices raid_i with
      | (drive_i, sector_i, parity_drive_i) =>
        let v := payload.headD zeroSector
        if vol.m_status = RAID_DEGRADED ∧ vol.m_failed_drive_i = drive_i then
          -- dead data drive: only the stripe parity is rewritten (lines 467-484)
          match xor_get_parity_supplement_dead_sector vol dsk parity_drive_i drive_i v
              sector_i with
          | (r, new_parity, dsk1) =>
            if 0 ≤ r then (false, { vol with m_status := RAID_FAILED }, dsk1)
            else
              match devWrite dsk1 parity_drive_i sector_i new_parity with
              | (false, dsk2) => (false, { vol with m_status := RAID_FAILED }, dsk2)
              | (true, dsk2) => writeLoop vol dsk2 (raid_i + 1) secEnd payload.tail
        else if vol.m_status = RAID_DEGRADED ∧ vol.m_failed_drive_i ≠ drive_i then
          if vol.m_failed_drive_i = parity_drive_i then
            -- parity lives on the dead drive: plain data write (lines 489-495)
            match devWrite dsk drive_i sector_i v with
            | (false, dsk1) => (false, { vol with m_status := RAID_FAILED }, dsk1)
            | (true, dsk1) => writeLoop vol dsk1 (raid_i + 1) secEnd payload.tail
          else
            -- reconstruct the dead sector, write data, then new parity (lines 497-528)
            match xor_read_without_sector vol dsk vol.m_failed_drive_i sector_i with
            | (r, dead_drive_data, dsk1) =>
              if 0 ≤ r then (false, { vol with m_status := RAID_FAILED }, dsk1)
              else
                match devWrite dsk1 drive_i sector_i v with
                | (false, dsk2) => (false, { vol with m_status := RAID_FAILED }, dsk2)
                | (true, dsk2) =>
                  match xor_get_parity_supplement_dead_sector vol dsk2 parity_drive_i
                      vol.m_failed_drive_i dead_drive_data sector_i with
                  | (r2, new_parity, dsk3) =>
                    if 0 ≤ r2 then (false, { vol with m_status := RAID_FAILED }, dsk3)
                    else
                      match devWrite dsk3 parity_drive_i sector_i new_parity with
                      | (false, dsk4) => (false, { vol with m_status := RAID_FAILED }, dsk4)
                      | (true, dsk4) => writeLoop vol dsk4 (raid_i + 1) secEnd payload.tail
        else if vol.m_status = RAID_OK then
          -- write data, recompute and write parity; any fault degrades and
          -- retries the same raid_i (lines 532-563)
          match devWrite dsk drive_i sector_i v with
          | (false, dsk1) =>
              writeLoop
                { vol with m_status := RAID_DEGRADED, m_failed_drive_i := drive_i }
                dsk1 raid_i secEnd payload
          | (true, dsk1) =>
            match xor_read_without_sector vol dsk1 parity_drive_i sector_i with
            | (r, new_parity, dsk2) =>
              if 0 ≤ r then
                writeLoop
                  { vol with m_status := RAID_DEGRADED, m_failed_drive_i := r }
                  dsk2 raid_i secEnd payload
              else
                match devWrite dsk2 parity_drive_i sector_i new_parity with
                | (false, dsk3) =>
                    writeLoop
                      { vol with
                          m_status := RAID_DEGRADED
                          m_failed_drive_i := parity_drive_i }
                      dsk3 raid_i secEnd payload
                | (true, dsk3) => writeLoop vol dsk3 (raid_i + 1) secEnd payload.tail
        else
          -- neither DEGRADED nor OK: the loop body falls through to the
          -- pointer increment
          writeLoop vol dsk (raid_i + 1) secEnd payload.tail
  else (true, vol, dsk)
termination_by
  2 * (secEnd - raid_i).toNat + (if vol.m_status = RAID_DEGRADED then 0 else 1)
decreasing_by
  all_goals simp_all [RAID_DEGRADED, RAID_OK]
  all_goals omega

/-- CRaidVolume::write. -/
def CRaidVolume.write (vol : CRaidVolume) (dsk : DiskState) (secNr : Int)
    (payload : List Sector) (secCnt : Int) (dataNull : Bool) :
    Bool × CRaidVolume × DiskState :=
  if dataNull = true ∨ secCnt < 0 ∨ secCnt > vol.m_raid_size - 1 ∨
      vol.m_status = RAID_FAILED then
    (false, vol, dsk)
  else writeLoop vol dsk secNr (secNr + secCnt) payload

/-- CRaidVolume::status (solution.cpp lines 389-391). -/
def CRaidVolume.status (vol : CRaidVolume) : Int := vol.m_status

/-- CRaidVolume::size (solution.cpp lines 393-395). -/
def CRaidVolume.size (vol : CRaidVolume) : Int := vol.m_raid_size

/-- Xor of a function over the drive range [i, n). -/
def xorFoldRange (g : Nat → Sector) (i n : Nat) : Sector :=
  if h : i < n then xor_int_buffers (g i) (xorFoldRange g (i + 1) n) else zeroSector
termination_by n - i

/-! ### Geometry facts

The Nat-level image of raid_sector_to_physical: physN D rs is the physical
sector index (row-major across the D devices) assigned to logical sector rs,
from which the code derives drive = physN % D, device sector = physN / D and
parity drive = (physN / D) % D. -/

def physN (D rs : Nat) : Nat := rs + (1 + rs / D + rs / (D * (D - 1)))

/-- Row xor of the drives other than the excluded one, over the first D
drives of a disk. -/
def rowXorExcept (dsk : DiskState) (D : Nat) (excl s : Int) : Sector :=
  xorFoldRange (fun d => if (d : Int) = excl then zeroSector else dsk.contents d s) 0 D

/-- Components of raid_sector_to_physical, named for the statements below. -/
def dataDrive (D rs : Int) : Int := (raid_sector_to_physical D rs).1

def dataSec (D rs : Int) : Int := (raid_sector_to_physical D rs).2.1

def parityDrive (D rs : Int) : Int := (raid_sector_to_physical D rs).2.2

/-- Sector list a fault-free read of k sectors starting at raid_i returns:
the disk contents at the data positions of the addressed logical sectors. -/
def readOutN (dsk : DiskState) (D : Int) (raid_i : Int) : Nat → List Sector
  | 0 => []
  | k + 1 =>
      dsk.contents (dataDrive D raid_i) (dataSec D raid_i) ::
        readOutN dsk D (raid_i + 1) k

/-! ### Concrete fixtures used by witnesses -/

/-- Building a disk state from contents and health flags, with an empty
operation trace. -/
def mkDisk (c : Int → Int → Sector) (r w : Int → Bool) : DiskState :=
  { contents := c, readOk := r, writeOk := w, trace := [] }

/-- A freshly constructed volume (the constructor runs
clear_raid_volume_data on an arbitrary initial state). -/
def wVol : CRaidVolume :=
  clear_raid_volume_data
    { m_dev := none, m_metadata_sector := 0, m_failed_drive_i := -1, m_timestamp := 1,
      m_status := RAID_STOPPED, m_raid_size := 0, m_buffer := ⟨0, 0⟩ }

/-- A minimal valid device descriptor: 3 devices of 2048 sectors. -/
def wDev3 : TBlkDev := ⟨3, 2048⟩

/-- A started, healthy volume over wDev3 (the state start produces from a
fresh create: raid size (3-1)*(2048-1) = 4094, metadata sector 2047), with
in-memory timestamp 5. -/
def wVolOK : CRaidVolume :=
  { m_dev := some wDev3, m_metadata_sector := 2047, m_failed_drive_i := -1,
    m_timestamp := 5, m_status := RAID_OK, m_raid_size := 4094, m_buffer := ⟨0, 0⟩ }

/-- All-zero, fully healthy disk. -/
def wDiskZero : DiskState := mkDisk (fun _ _ => zeroSector) (fun _ => true) (fun _ => true)

/-- All-zero disk whose device 1 fails every write. -/
def wDiskW1Dead : DiskState :=
  mkDisk (fun _ _ => zeroSector) (fun _ => true) (fun d => if d = 1 then false else true)

/-- All-zero disk whose device 0 fails every read and every write. -/
def wDiskD0Dead : DiskState :=
  mkDisk (fun _ _ => zeroSector) (fun d => if d = 0 then false else true)
    (fun d => if d = 0 then false else true)

/-- A degraded volume over wDev3 whose device 0 is the known failed drive. -/
def wVolDeg : CRaidVolume :=
  { m_dev := some wDev3, m_metadata_sector := 2047, m_failed_drive_i := 0,
    m_timestamp := 5, m_status := RAID_DEGRADED, m_raid_size := 4094, m_buffer := ⟨0, 0⟩ }

/-! ### Start/stop cycles (claim C9) -/

/-- One successful lifecycle round: assemble the volume with start, then
persist and release it with stop. -/
def cycleOnce (dev : TBlkDev) (p : CRaidVolume × DiskState) : CRaidVolume × DiskState :=
  let s := p.1.start dev p.2
  let q := s.2.1.stop s.2.2
  (q.2.1, q.2.2)

/-- n successive start/stop rounds. -/
def cyclesN (dev : TBlkDev) (p : CRaidVolume × DiskState) : Nat → CRaidVolume × DiskState
  | 0 => p
  | n + 1 => cycleOnce dev (cyclesN dev p n)

/-- Healthy disk whose every sector reads as freshly created metadata
(failed drive -1, timestamp 0). -/
def wDiskMeta0 : DiskState :=
  mkDisk (fun _ _ => metaSector (-1) 0) (fun _ => true) (fun _ => true)

/-! ### Xor algebra -/

theorem xib_comm (a b : Sector) : xor_int_buffers a b = xor_int_buffers b a := by
  simp [xor_int_buffers, Nat.xor_comm]

theorem xib_assoc (a b c : Sector) :
    xor_int_buffers (xor_int_buffers a b) c = xor_int_buffers a (xor_int_buffers b c) := by
  simp [xor_int_buffers, Nat.xor_assoc]

theorem xib_self (a : Sector) : xor_int_buffers a a = zeroSector := by
  simp [xor_int_buffers, zeroSector]

theorem xib_zero_left (a : Sector) : xor_int_buffers zeroSector a = a := by
  simp [xor_int_buffers, zeroSector]

theorem xib_zero_right (a : Sector) : xor_int_buffers a zeroSector = a := by
  simp [xor_int_buffers, zeroSector]

theorem xib_cancel_left (a b : Sector) : xor_int_buffers a (xor_int_buffers a b) = b := by
  rw [← xib_assoc, xib_self, xib_zero_left]


theorem xfr_stop (g : Nat → Sector) {i n : Nat} (h : ¬ i < n) :
    xorFoldRange g i n = zeroSector := by
  rw [xorFoldRange]
  simp [h]

theorem xfr_step (g : Nat → Sector) {i n : Nat} (h : i < n) :
    xorFoldRange g i n = xor_int_buffers (g i) (xorFoldRange g (i + 1) n) := by
  rw [xorFoldRange]
  simp [h]

theorem xfr_congr (g g' : Nat → Sector) (i n : Nat)
    (H : ∀ d, i ≤ d → d < n → g d = g' d) :
    xorFoldRange g i n = xorFoldRange g' i n := by
  by_cases h : i < n
  · rw [xfr_step g h, xfr_step g' h, H i le_rfl h,
      xfr_congr g g' (i + 1) n (fun d hd hn => H d (by omega) hn)]
  · rw [xfr_stop g h, xfr_stop g' h]
termination_by n - i

theorem xfr_xor (g g' : Nat → Sector) (i n : Nat) :
    xorFoldRange (fun d => xor_int_buffers (g d) (g' d)) i n =
      xor_int_buffers (xorFoldRange g i n) (xorFoldRange g' i n) := by
  by_cases h : i < n
  · rw [xfr_step _ h, xfr_step g h, xfr_step g' h, xfr_xor g g' (i + 1) n]
    simp only [xib_assoc]
    rw [← xib_assoc (xorFoldRange g (i+1) n), xib_comm (xorFoldRange g (i+1) n) (g' i),
      xib_assoc]
  · rw [xfr_stop _ h, xfr_stop g h, xfr_stop g' h, xib_zero_left]
termination_by n - i

theorem xfr_zero (i n : Nat) : xorFoldRange (fun _ => zeroSector) i n = zeroSector := by
  by_cases h : i < n
  · rw [xfr_step _ h, xfr_zero (i + 1) n, xib_zero_left]
  · exact xfr_stop _ h
termination_by n - i

theorem xfr_single (v : Sector) (k i n : Nat) (hik : i ≤ k) (hkn : k < n) :
    xorFoldRange (fun d => if d = k then v else zeroSector) i n = v := by
  have h : i < n := by omega
  rw [xfr_step _ h]
  by_cases hk : i = k
  · subst hk
    rw [if_pos rfl]
    rw [xfr_congr _ (fun _ => zeroSector) (i + 1) n
        (by intro d hd _; simp [show d ≠ i by omega]), xfr_zero, xib_zero_right]
  · simp only [if_neg hk]
    rw [xfr_single v k (i + 1) n (by omega) hkn, xib_zero_left]
termination_by n - i

/-- Extracting one position from a fold: the fold equals the value at k xored
with the fold of the function zeroed at k. -/
theorem xfr_extract (g : Nat → Sector) (k i n : Nat) (hik : i ≤ k) (hkn : k < n) :
    xorFoldRange g i n =
      xor_int_buffers (g k) (xorFoldRange (fun d => if d = k then zeroSector else g d) i n) := by
  have hpt : ∀ d, g d =
      xor_int_buffers (if d = k then g k else zeroSector)
        (if d = k then zeroSector else g d) := by
    intro d
    by_cases hd : d = k
    · subst hd; simp [xib_zero_right]
    · simp [hd, xib_zero_left]
  calc xorFoldRange g i n
      = xorFoldRange (fun d => xor_int_buffers (if d = k then g k else zeroSector)
          (if d = k then zeroSector else g d)) i n :=
        xfr_congr _ _ i n (fun d _ _ => hpt d)
    _ = xor_int_buffers (xorFoldRange (fun d => if d = k then g k else zeroSector) i n)
          (xorFoldRange (fun d => if d = k then zeroSector else g d) i n) := xfr_xor _ _ i n
    _ = _ := by rw [xfr_single (g k) k i n hik hkn]

/-! ### Metadata word encoding -/

theorem decI_encI (x : Int) (h1 : -2147483648 ≤ x) (h2 : x < 2147483648) :
    decI (encI x) = x := by
  simp only [encI, decI]
  split <;> omega

theorem encI_inj (x y : Int) (h1 : -2147483648 ≤ x) (h2 : x < 2147483648)
    (h3 : -2147483648 ≤ y) (h4 : y < 2147483648) (h : encI x = encI y) : x = y := by
  have hx := decI_encI x h1 h2
  have hy := decI_encI y h3 h4
  rw [h] at hx
  omega


theorem rstp_eq_physN (D rs : Int) (hD : 2 ≤ D) (hrs : 0 ≤ rs) :
    raid_sector_to_physical D rs =
      (((physN D.toNat rs.toNat % D.toNat : Nat) : Int),
       ((physN D.toNat rs.toNat / D.toNat : Nat) : Int),
       (((physN D.toNat rs.toNat / D.toNat) % D.toNat : Nat) : Int)) := by
  obtain ⟨d, rfl⟩ := Int.eq_ofNat_of_zero_le (by omega : (0:Int) ≤ D)
  obtain ⟨r, rfl⟩ := Int.eq_ofNat_of_zero_le hrs
  have hd1 : 1 ≤ d := by omega
  have hsub : ((d - 1 : Nat) : Int) = (d : Int) - 1 := Int.ofNat_sub hd1
  have hphys : ((physN d r : Nat) : Int) =
      (r : Int) + (1 + (r : Int) / (d : Int) + (r : Int) / ((d : Int) * ((d : Int) - 1))) := by
    unfold physN
    push_cast [Int.ofNat_ediv, hsub]
    ring
  simp only [raid_sector_to_physical, Int.toNat_natCast, Prod.mk.injEq]
  refine ⟨?_, ?_, ?_⟩
  · rw [← hphys, Int.ofNat_emod]
  · rw [← hphys, Int.ofNat_ediv]
  · rw [← hphys, Int.ofNat_emod, Int.ofNat_ediv]

/-- Every logical sector index decomposes as rs = D(D-1)a + (Dm + t) with
m at most D-2 and t below D (here D = E+2). -/
theorem physN_decompE (E rs : Nat) :
    ∃ a m t, m ≤ E ∧ t < E + 2 ∧ rs = ((E+2) * (E+1)) * a + ((E+2) * m + t) := by
  have hP : 0 < (E+2) * (E+1) := Nat.mul_pos (by omega) (by omega)
  have e1 := Nat.div_add_mod rs ((E+2)*(E+1))
  have e2 := Nat.div_add_mod (rs % ((E+2)*(E+1))) (E+2)
  have hb : rs % ((E+2)*(E+1)) < (E+2)*(E+1) := Nat.mod_lt _ hP
  have ht : rs % ((E+2)*(E+1)) % (E+2) < E + 2 := Nat.mod_lt _ (by omega)
  have hm : (rs % ((E+2)*(E+1))) / (E+2) ≤ E := by
    have h2 := (Nat.div_lt_iff_lt_mul (show 0 < E+2 by omega)).mpr
      (show rs % ((E+2)*(E+1)) < (E+1)*(E+2) by rw [Nat.mul_comm (E+1) (E+2)]; exact hb)
    omega
  exact ⟨rs / ((E+2)*(E+1)), (rs % ((E+2)*(E+1))) / (E+2), rs % ((E+2)*(E+1)) % (E+2),
    hm, ht, by omega⟩

/-- Value of physN on a decomposed index. -/
theorem physN_formula (E a m t : Nat) (hm : m ≤ E) (ht : t < E + 2) :
    physN (E+2) (((E+2) * (E+1)) * a + ((E+2) * m + t)) =
      (E+2) * ((E+2) * a + m) + (t + m + 1) := by
  have hD1 : (E+2) - 1 = E+1 := rfl
  have hlt : (E+2) * m + t < (E+2) * (E+1) := by
    have h1 : (E+2) * m ≤ (E+2) * E := Nat.mul_le_mul_left _ hm
    have h2 : (E+2) * (E+1) = (E+2) * E + (E+2) := by ring
    omega
  have d1 : (((E+2) * (E+1)) * a + ((E+2) * m + t)) / ((E+2) * (E+1)) = a := by
    rw [Nat.mul_add_div (Nat.mul_pos (by omega) (by omega) : 0 < (E+2)*(E+1)), Nat.div_eq_of_lt hlt, Nat.add_zero]
  have hsplit : ((E+2) * (E+1)) * a + ((E+2) * m + t) = (E+2) * ((E+1) * a + m) + t := by
    ring
  have d2 : (((E+2) * (E+1)) * a + ((E+2) * m + t)) / (E+2) = (E+1) * a + m := by
    rw [hsplit, Nat.mul_add_div (by omega), Nat.div_eq_of_lt ht, Nat.add_zero]
  unfold physN
  rw [hD1, d1, d2]
  ring

/-- Remainder and quotient of physN by the device count, by cases on whether
the in-row offset wraps. -/
theorem physN_md (E rs : Nat) :
    ∃ a m t, m ≤ E ∧ t < E + 2 ∧
      rs = ((E+2) * (E+1)) * a + ((E+2) * m + t) ∧
      ((t + m + 1 < E + 2 ∧ physN (E+2) rs % (E+2) = t + m + 1 ∧
          physN (E+2) rs / (E+2) = (E+2) * a + m) ∨
       (E + 2 ≤ t + m + 1 ∧ physN (E+2) rs % (E+2) = t + m + 1 - (E+2) ∧
          physN (E+2) rs / (E+2) = (E+2) * a + m + 1)) := by
  obtain ⟨a, m, t, hm, ht, hrs⟩ := physN_decompE E rs
  subst hrs
  refine ⟨a, m, t, hm, ht, rfl, ?_⟩
  rw [physN_formula E a m t hm ht]
  by_cases hc : t + m + 1 < E + 2
  · left
    refine ⟨hc, ?_, ?_⟩
    · rw [Nat.mul_add_mod, Nat.mod_eq_of_lt hc]
    · rw [Nat.mul_add_div (by omega), Nat.div_eq_of_lt hc, Nat.add_zero]
  · right
    have hx : (E+2) * ((E+2) * a + m + 1) = (E+2) * ((E+2) * a + m) + (E+2) := by ring
    have hre : (E+2) * ((E+2) * a + m) + (t + m + 1) =
        (E+2) * ((E+2) * a + m + 1) + (t + m + 1 - (E+2)) := by omega
    have hu : t + m + 1 - (E+2) < E + 2 := by omega
    refine ⟨by omega, ?_, ?_⟩
    · rw [hre, Nat.mul_add_mod, Nat.mod_eq_of_lt hu]
    · rw [hre, Nat.mul_add_div (by omega), Nat.div_eq_of_lt hu, Nat.add_zero]

/-- The data drive of a logical sector differs from its stripe's parity
drive. -/
theorem physN_data_ne_parity (E rs : Nat) :
    physN (E+2) rs % (E+2) ≠ (physN (E+2) rs / (E+2)) % (E+2) := by
  obtain ⟨a, m, t, hm, ht, _, hcase⟩ := physN_md E rs
  rcases hcase with ⟨hc, h1, h2⟩ | ⟨hc, h1, h2⟩
  · have h3 : ((E+2) * a + m) % (E+2) = m := by
      rw [Nat.mul_add_mod, Nat.mod_eq_of_lt (by omega)]
    rw [h1, h2, h3]
    omega
  · have h3 : ((E+2) * a + m + 1) % (E+2) = m + 1 := by
      rw [Nat.add_assoc, Nat.mul_add_mod, Nat.mod_eq_of_lt (by omega)]
    rw [h1, h2, h3]
    omega

/-- Monotonicity of the physical sector index. -/
theorem physN_mono (D : Nat) {x y : Nat} (h : x < y) : physN D x < physN D y := by
  unfold physN
  have h1 : x / D ≤ y / D := Nat.div_le_div_right (by omega)
  have h2 : x / (D * (D-1)) ≤ y / (D * (D-1)) := Nat.div_le_div_right (by omega)
  omega

/-- Row bound: logical sectors below (D-1)k live in rows below k. -/
theorem physN_row_lt (E k rs : Nat) (h : rs < (E+1) * k) :
    physN (E+2) rs / (E+2) < k := by
  obtain ⟨a, m, t, hm, ht, hrs, hcase⟩ := physN_md E rs
  have hkey : ((E+2) * (E+1)) * a + ((E+2) * m + t) =
      (E+1) * ((E+2) * a + m) + (m + t) := by ring
  rcases hcase with ⟨hc, _, h2⟩ | ⟨hc, _, h2⟩
  · rw [h2]
    by_contra hge
    have hmul : (E+1) * k ≤ (E+1) * ((E+2) * a + m) := Nat.mul_le_mul_left _ (by omega)
    omega
  · rw [h2]
    by_contra hge
    have hmul : (E+1) * k ≤ (E+1) * ((E+2) * a + m + 1) := Nat.mul_le_mul_left _ (by omega)
    have hx : (E+1) * ((E+2) * a + m + 1) = (E+1) * ((E+2) * a + m) + (E+1) := by ring
    omega

/-- Drive index of the data position is below the device count. -/
theorem physN_drive_lt (D rs : Nat) (hD : 0 < D) : physN D rs % D < D :=
  Nat.mod_lt _ hD

/-- Two distinct logical sectors occupy distinct (drive, device sector)
positions. -/
theorem dposN_inj (D : Nat) {x y : Nat} (h : x ≠ y) :
    (physN D x % D, physN D x / D) ≠ (physN D y % D, physN D y / D) := by
  intro he
  have e1 : physN D x % D = physN D y % D := congrArg Prod.fst he
  have e2 : physN D x / D = physN D y / D := congrArg Prod.snd he
  have ex := Nat.div_add_mod (physN D x) D
  have ey := Nat.div_add_mod (physN D y) D
  rw [e1, e2] at ex
  have heq : physN D x = physN D y := by omega
  rcases Nat.lt_trichotomy x y with hlt | heq2 | hgt
  · exact absurd heq (Nat.ne_of_lt (physN_mono D hlt))
  · exact h heq2
  · exact absurd heq (Nat.ne_of_gt (physN_mono D hgt))

/-- No data position coincides with any stripe's parity position. -/
theorem dposN_ne_pposN (E : Nat) (x y : Nat) :
    (physN (E+2) x % (E+2), physN (E+2) x / (E+2)) ≠
      ((physN (E+2) y / (E+2)) % (E+2), physN (E+2) y / (E+2)) := by
  intro he
  have e1 : physN (E+2) x % (E+2) = (physN (E+2) y / (E+2)) % (E+2) :=
    congrArg Prod.fst he
  have e2 : physN (E+2) x / (E+2) = physN (E+2) y / (E+2) := congrArg Prod.snd he
  exact physN_data_ne_parity E x (by rw [e1, e2])

/-! ### Claim C5 -/

/-- C5: for every device count D in [3,16] and sector count S within the
configured bounds, raid_sector_to_physical is injective on logical sectors
0 ≤ logical < L = (D-1)(S-1) as a map to (device, device-sector) pairs,
never yields a data device equal to the stripe's parity device, and never
yields device-sector index S-1 (the metadata sector). -/
theorem C5_geometry (D S : Int) (hD1 : 3 ≤ D) (hD2 : D ≤ 16)
    (hS1 : MIN_DEVICE_SECTORS ≤ S) (hS2 : S ≤ MAX_DEVICE_SECTORS) :
    (∀ x y : Int, 0 ≤ x → x < (D-1)*(S-1) → 0 ≤ y → y < (D-1)*(S-1) → x ≠ y →
      ((raid_sector_to_physical D x).1, (raid_sector_to_physical D x).2.1) ≠
        ((raid_sector_to_physical D y).1, (raid_sector_to_physical D y).2.1)) ∧
    (∀ x : Int, 0 ≤ x → x < (D-1)*(S-1) →
      (raid_sector_to_physical D x).1 ≠ (raid_sector_to_physical D x).2.2) ∧
    (∀ x : Int, 0 ≤ x → x < (D-1)*(S-1) →
      (raid_sector_to_physical D x).2.1 ≠ S - 1) := by
  have hS1' : (2048 : Int) ≤ S := by
    simpa [MIN_DEVICE_SECTORS] using hS1
  obtain ⟨E, hE⟩ : ∃ E : Nat, D = ((E : Int) + 2) := ⟨(D - 2).toNat, by omega⟩
  have hDt : D.toNat = E + 2 := by omega
  obtain ⟨k, hk⟩ : ∃ k : Nat, S - 1 = (k : Int) := ⟨(S - 1).toNat, by omega⟩
  have hDm1 : D - 1 = ((E : Int) + 1) := by omega
  have hL : (D-1)*(S-1) = (((E+1) * k : Nat) : Int) := by
    push_cast
    rw [hDm1, hk]
  refine ⟨?_, ?_, ?_⟩
  · intro x y hx0 hxL hy0 hyL hxy
    rw [rstp_eq_physN D x (by omega) hx0, rstp_eq_physN D y (by omega) hy0]
    simp only [hDt]
    intro he
    have e1 : ((physN (E+2) x.toNat % (E+2) : Nat) : Int) =
        ((physN (E+2) y.toNat % (E+2) : Nat) : Int) := congrArg Prod.fst he
    have e2 : ((physN (E+2) x.toNat / (E+2) : Nat) : Int) =
        ((physN (E+2) y.toNat / (E+2) : Nat) : Int) := congrArg Prod.snd he
    have hne : x.toNat ≠ y.toNat := by omega
    exact dposN_inj (E+2) hne (by
      simp only [Prod.mk.injEq]
      exact ⟨by omega, by omega⟩)
  · intro x hx0 hxL
    rw [rstp_eq_physN D x (by omega) hx0]
    simp only [hDt]
    intro he
    exact physN_data_ne_parity E x.toNat (by omega)
  · intro x hx0 hxL
    rw [rstp_eq_physN D x (by omega) hx0]
    simp only [hDt]
    have hxk : x.toNat < (E+1) * k := by
      rw [hL] at hxL
      omega
    have hrow := physN_row_lt E k x.toNat hxk
    omega

/-- Witness for C5 at D = 3, S = 2048. -/
theorem C5_geometry_witness :
    ((3:Int) ≤ 3 ∧ (3:Int) ≤ 16 ∧ MIN_DEVICE_SECTORS ≤ (2048:Int) ∧
      (2048:Int) ≤ MAX_DEVICE_SECTORS) ∧
    ((∀ x y : Int, 0 ≤ x → x < (3-1)*(2048-1) → 0 ≤ y → y < (3-1)*(2048-1) → x ≠ y →
      ((raid_sector_to_physical 3 x).1, (raid_sector_to_physical 3 x).2.1) ≠
        ((raid_sector_to_physical 3 y).1, (raid_sector_to_physical 3 y).2.1)) ∧
    (∀ x : Int, 0 ≤ x → x < (3-1)*(2048-1) →
      (raid_sector_to_physical 3 x).1 ≠ (raid_sector_to_physical 3 x).2.2) ∧
    (∀ x : Int, 0 ≤ x → x < (3-1)*(2048-1) →
      (raid_sector_to_physical 3 x).2.1 ≠ 2048 - 1)) :=
  ⟨⟨by norm_num, by norm_num, by norm_num [MIN_DEVICE_SECTORS],
    by norm_num [MAX_DEVICE_SECTORS]⟩,
   C5_geometry 3 2048 (by norm_num) (by norm_num) (by norm_num [MIN_DEVICE_SECTORS])
     (by norm_num [MAX_DEVICE_SECTORS])⟩

/-! ### Claim C10 -/

/-- C10: on a volume in STOPPED state (fresh from the constructor or from
stop, i.e. any state produced by clear_raid_volume_data), every read and
every write returns false, leaves the volume and the disk (including the
operation trace) unchanged, and delivers no data: the stored raid size is 0,
so every secCnt ≥ 0 fails the secCnt > size - 1 pre-check and every
secCnt < 0 fails the sign pre-check. -/
theorem C10_stopped_rejects_io (v0 : CRaidVolume) (dsk : DiskState)
    (secNr secCnt : Int) (payload : List Sector) (dataNull : Bool) :
    (clear_raid_volume_data v0).read dsk secNr secCnt dataNull =
      (false, clear_raid_volume_data v0, dsk, []) ∧
    (clear_raid_volume_data v0).write dsk secNr payload secCnt dataNull =
      (false, clear_raid_volume_data v0, dsk) := by
  have hcond : secCnt < 0 ∨ secCnt > (clear_raid_volume_data v0).m_raid_size - 1 := by
    simp only [clear_raid_volume_data]
    omega
  constructor
  · rw [CRaidVolume.read, if_pos]
    rcases hcond with h | h
    · exact Or.inr (Or.inl h)
    · exact Or.inr (Or.inr (Or.inl h))
  · rw [CRaidVolume.write, if_pos]
    rcases hcond with h | h
    · exact Or.inr (Or.inl h)
    · exact Or.inr (Or.inr (Or.inl h))

/-! ### Claim C6 -/

/-- C6: if during start the metadata read fails on exactly one device k of
the quorum {0,1,2} and the other two reads succeed with equal timestamps t
and both report failed_drive = -1, then start returns RAID_DEGRADED, records
k as the failed drive and adopts t as the in-memory timestamp. -/
theorem C6_start_one_vote_missing (vol : CRaidVolume) (dev : TBlkDev) (dsk : DiskState)
    (k t : Int)
    (hvol : vol.m_dev = none)
    (hval : validate_t_blk_dev dev = true)
    (hk : k = 0 ∨ k = 1 ∨ k = 2)
    (hdead : dsk.readOk k = false)
    (hlive : ∀ d : Int, 0 ≤ d → d < 3 → d ≠ k → dsk.readOk d = true)
    (hmeta : ∀ d : Int, 0 ≤ d → d < 3 → d ≠ k →
      dsk.contents d (dev.m_Sectors - 1) = metaSector (-1) t)
    (ht1 : -2147483648 ≤ t) (ht2 : t < 2147483648) :
    (vol.start dev dsk).1 = RAID_DEGRADED ∧
    (vol.start dev dsk).2.1.m_status = RAID_DEGRADED ∧
    (vol.start dev dsk).2.1.m_failed_drive_i = k ∧
    (vol.start dev dsk).2.1.m_timestamp = t := by
  have hfd : decI (encI (-1)) = -1 := decI_encI (-1) (by norm_num) (by norm_num)
  have hts : decI (encI t) = t := decI_encI t ht1 ht2
  rcases hk with rfl | rfl | rfl
  · have h1 := hlive 1 (by norm_num) (by norm_num) (by norm_num)
    have h2 := hlive 2 (by norm_num) (by norm_num) (by norm_num)
    have m1 := hmeta 1 (by norm_num) (by norm_num) (by norm_num)
    have m2 := hmeta 2 (by norm_num) (by norm_num) (by norm_num)
    simp [CRaidVolume.start, hvol, hval, metaReadLoop, devRead, hdead, h1, h2, m1, m2,
      metaSector, updArr, hfd, hts, RAID_DEGRADED]
  · have h1 := hlive 0 (by norm_num) (by norm_num) (by norm_num)
    have h2 := hlive 2 (by norm_num) (by norm_num) (by norm_num)
    have m1 := hmeta 0 (by norm_num) (by norm_num) (by norm_num)
    have m2 := hmeta 2 (by norm_num) (by norm_num) (by norm_num)
    simp [CRaidVolume.start, hvol, hval, metaReadLoop, devRead, hdead, h1, h2, m1, m2,
      metaSector, updArr, hfd, hts, RAID_DEGRADED]
  · have h1 := hlive 0 (by norm_num) (by norm_num) (by norm_num)
    have h2 := hlive 1 (by norm_num) (by norm_num) (by norm_num)
    have m1 := hmeta 0 (by norm_num) (by norm_num) (by norm_num)
    have m2 := hmeta 1 (by norm_num) (by norm_num) (by norm_num)
    simp [CRaidVolume.start, hvol, hval, metaReadLoop, devRead, hdead, h1, h2, m1, m2,
      metaSector, updArr, hfd, hts, RAID_DEGRADED]

/-- Witness for C6: device 0 unreadable, devices 1 and 2 carry timestamp 5
and failed_drive -1. -/
theorem C6_start_one_vote_missing_witness :
    (wVol.m_dev = none ∧
     (mkDisk (fun _ _ => metaSector (-1) 5) (fun d => if d = 0 then false else true)
        (fun _ => true)).readOk 0 = false) ∧
    ((wVol.start wDev3 (mkDisk (fun _ _ => metaSector (-1) 5)
        (fun d => if d = 0 then false else true) (fun _ => true))).1 = RAID_DEGRADED ∧
     (wVol.start wDev3 (mkDisk (fun _ _ => metaSector (-1) 5)
        (fun d => if d = 0 then false else true) (fun _ => true))).2.1.m_status =
          RAID_DEGRADED ∧
     (wVol.start wDev3 (mkDisk (fun _ _ => metaSector (-1) 5)
        (fun d => if d = 0 then false else true) (fun _ => true))).2.1.m_failed_drive_i = 0 ∧
     (wVol.start wDev3 (mkDisk (fun _ _ => metaSector (-1) 5)
        (fun d => if d = 0 then false else true) (fun _ => true))).2.1.m_timestamp = 5) :=
  ⟨⟨rfl, rfl⟩,
   C6_start_one_vote_missing wVol wDev3
     (mkDisk (fun _ _ => metaSector (-1) 5) (fun d => if d = 0 then false else true)
       (fun _ => true)) 0 5 rfl rfl (Or.inl rfl) rfl
     (fun d _ _ hd => by simp [mkDisk, hd])
     (fun d _ _ _ => rfl) (by norm_num) (by norm_num)⟩

/-! ### Claim C3 -/

/-- C3, evaluated at the failing input: stopping the healthy 3-device volume
(timestamp 5) while device 1 rejects its metadata write.  The loop restart
(dev_i = 0 followed by continue) resumes at device 1 because the for's
increment still runs, so device 0 keeps the stale record with
failed_drive = -1 and only device 2 receives failed_drive = 1; the claim
requires every device other than 1 - device 0 included - to end up with
failed_drive = 1 and timestamp 6. -/
theorem C3_stop_restart_misses_device_zero :
    (wVolOK.stop wDiskW1Dead).2.2.contents 0 2047 = metaSector (-1) 6 ∧
    (wVolOK.stop wDiskW1Dead).2.2.contents 2 2047 = metaSector 1 6 ∧
    metaSector (-1) 6 ≠ metaSector 1 6 := by
  refine ⟨?_, ?_, by decide⟩ <;>
    simp [CRaidVolume.stop, stopLoop, devWrite, mkDisk, wVolOK, wDev3, wDiskW1Dead,
      metaSector, RAID_STOPPED, RAID_FAILED, RAID_OK, RAID_DEGRADED,
      CRaidVolume.devices, clear_raid_volume_data]

/-! ### Loop characterisations under healthy devices -/

/-- xor_read_loop on healthy drives: returns -1 and the xor of the addressed
sectors of all drives in [i, D) other than the excluded one, only extending
the operation trace. -/
theorem xor_read_loop_ok (dsk : DiskState) (D : Nat) (dead s : Int) (i : Nat) (out : Sector)
    (H : ∀ d : Nat, i ≤ d → d < D → (d : Int) ≠ dead → dsk.readOk d = true) :
    ∃ tr, xor_read_loop dsk D dead s i out =
      (-1,
       xor_int_buffers out (xorFoldRange
         (fun d => if (d : Int) = dead then zeroSector else dsk.contents d s) i D),
       { dsk with trace := tr }) := by
  by_cases h : i < D
  · rw [xor_read_loop, dif_pos h]
    by_cases hd : (i : Int) = dead
    · rw [if_pos hd]
      obtain ⟨tr, e⟩ := xor_read_loop_ok dsk D dead s (i + 1) out
        (fun d h1 h2 h3 => H d (by omega) h2 h3)
      refine ⟨tr, ?_⟩
      rw [e, xfr_step _ h, if_pos hd, xib_zero_left]
    · rw [if_neg hd]
      have hro : dsk.readOk i = true := H i le_rfl h hd
      obtain ⟨tr, e⟩ := xor_read_loop_ok
        { dsk with trace := (false, (i : Int), s) :: dsk.trace } D dead s (i + 1)
        (xor_int_buffers out (dsk.contents i s))
        (fun d h1 h2 h3 => H d (by omega) h2 h3)
      refine ⟨tr, ?_⟩
      simp only [devRead, hro, if_true]
      rw [e, xfr_step _ h, if_neg hd, ← xib_assoc]
  · rw [xor_read_loop, dif_neg h]
    exact ⟨dsk.trace, by rw [xfr_stop _ h, xib_zero_right]⟩
termination_by D - i

/-- xor_parity_loop on healthy drives: returns -1 and the xor over [i, D) of
the addressed sectors, with the parity drive contributing nothing and the
dead drive contributing the supplied substitute buffer. -/
theorem xor_parity_loop_ok (dsk : DiskState) (D : Nat) (par dead : Int) (supp : Sector)
    (s : Int) (i : Nat) (out : Sector)
    (H : ∀ d : Nat, i ≤ d → d < D → (d : Int) ≠ par → (d : Int) ≠ dead →
      dsk.readOk d = true) :
    ∃ tr, xor_parity_loop dsk D par dead supp s i out =
      (-1,
       xor_int_buffers out (xorFoldRange
         (fun d => if (d : Int) = par then zeroSector
                   else if (d : Int) = dead then supp
                   else dsk.contents d s) i D),
       { dsk with trace := tr }) := by
  by_cases h : i < D
  · rw [xor_parity_loop, dif_pos h]
    by_cases hp : (i : Int) = par
    · rw [if_pos hp]
      obtain ⟨tr, e⟩ := xor_parity_loop_ok dsk D par dead supp s (i + 1) out
        (fun d h1 h2 h3 h4 => H d (by omega) h2 h3 h4)
      refine ⟨tr, ?_⟩
      rw [e, xfr_step _ h, if_pos hp, xib_zero_left]
    · rw [if_neg hp]
      by_cases hd : (i : Int) = dead
      · rw [if_pos hd]
        obtain ⟨tr, e⟩ := xor_parity_loop_ok dsk D par dead supp s (i + 1)
          (xor_int_buffers out supp)
          (fun d h1 h2 h3 h4 => H d (by omega) h2 h3 h4)
        refine ⟨tr, ?_⟩
        rw [e, xfr_step _ h, if_neg hp, if_pos hd, ← xib_assoc]
      · rw [if_neg hd]
        have hro : dsk.readOk i = true := H i le_rfl h hp hd
        obtain ⟨tr, e⟩ := xor_parity_loop_ok
          { dsk with trace := (false, (i : Int), s) :: dsk.trace } D par dead supp s (i + 1)
          (xor_int_buffers out (dsk.contents i s))
          (fun d h1 h2 h3 h4 => H d (by omega) h2 h3 h4)
        refine ⟨tr, ?_⟩
        simp only [devRead, hro, if_true]
        rw [e, xfr_step _ h, if_neg hp, if_neg hd, ← xib_assoc]
  · rw [xor_parity_loop, dif_neg h]
    exact ⟨dsk.trace, by rw [xfr_stop _ h, xib_zero_right]⟩
termination_by D - i

/-- stopLoop when every write succeeds: the metadata buffer lands on every
device in [i, D) and nothing else changes. -/
theorem stopLoop_all_ok (vol : CRaidVolume) (dsk : DiskState) (buf : Sector) (i : Int)
    (hw : ∀ d : Int, dsk.writeOk d = true) :
    ∃ dsk', stopLoop vol dsk buf i = (vol, dsk', buf) ∧
      (∀ d, dsk'.writeOk d = dsk.writeOk d) ∧
      (∀ d, dsk'.readOk d = dsk.readOk d) ∧
      (∀ d s : Int, dsk'.contents d s =
        if i ≤ d ∧ d < vol.devices ∧ s = vol.m_metadata_sector then buf
        else dsk.contents d s) := by
  by_cases h : i < vol.devices
  · have step : stopLoop vol dsk buf i = stopLoop vol
        { dsk with
            contents := fun d s =>
              if d = i ∧ s = vol.m_metadata_sector then buf else dsk.contents d s,
            trace := (true, i, vol.m_metadata_sector) :: dsk.trace }
        buf (i + 1) := by
      rw [stopLoop, dif_pos h]
      simp [devWrite, hw i]
    rw [step]
    obtain ⟨dsk', e, hwk, hrk, hc⟩ := stopLoop_all_ok vol
      { dsk with
          contents := fun d s =>
            if d = i ∧ s = vol.m_metadata_sector then buf else dsk.contents d s,
          trace := (true, i, vol.m_metadata_sector) :: dsk.trace }
      buf (i + 1) (fun d => hw d)
    refine ⟨dsk', e, fun d => (hwk d).trans rfl, fun d => (hrk d).trans rfl, ?_⟩
    intro d s
    rw [hc d s]
    dsimp only
    by_cases h1 : i + 1 ≤ d ∧ d < vol.devices ∧ s = vol.m_metadata_sector
    · rw [if_pos h1, if_pos (by omega : i ≤ d ∧ d < vol.devices ∧ s = vol.m_metadata_sector)]
    · rw [if_neg h1]
      by_cases h2 : d = i ∧ s = vol.m_metadata_sector
      · rw [if_pos h2, if_pos (by omega : i ≤ d ∧ d < vol.devices ∧ s = vol.m_metadata_sector)]
      · rw [if_neg h2, if_neg (by
          intro hcon
          rcases hcon with ⟨ha, hb, hcs⟩
          rcases Int.lt_or_le i d with hlt | hle
          · exact h1 ⟨by omega, hb, hcs⟩
          · exact h2 ⟨by omega, hcs⟩)]
  · rw [stopLoop, dif_neg h]
    refine ⟨dsk, rfl, fun _ => rfl, fun _ => rfl, ?_⟩
    intro d s
    rw [if_neg (by omega)]
termination_by (stopRank vol.m_status * ((vol.devices).toNat + 2) +
  (vol.devices - i).toNat)
decreasing_by
  all_goals omega

/-- createLoop when every write succeeds: the initial metadata sector lands
on every device in [i, D). -/
theorem createLoop_all_ok (dsk : DiskState) (D : Nat) (msec : Int) (i : Nat)
    (hw : ∀ d : Int, dsk.writeOk d = true) :
    ∃ dsk', createLoop dsk D msec i = (true, dsk') ∧
      (∀ d, dsk'.writeOk d = dsk.writeOk d) ∧
      (∀ d, dsk'.readOk d = dsk.readOk d) ∧
      (∀ d s : Int, dsk'.contents d s =
        if (i : Int) ≤ d ∧ d < (D : Int) ∧ s = msec then metaSector (-1) 0
        else dsk.contents d s) := by
  by_cases h : i < D
  · have step : createLoop dsk D msec i = createLoop
        { dsk with
            contents := fun d s =>
              if d = (i : Int) ∧ s = msec then metaSector (-1) 0 else dsk.contents d s,
            trace := (true, (i : Int), msec) :: dsk.trace }
        D msec (i + 1) := by
      rw [createLoop, dif_pos h]
      simp [devWrite, hw (i : Int)]
    rw [step]
    obtain ⟨dsk', e, hwk, hrk, hc⟩ := createLoop_all_ok
      { dsk with
          contents := fun d s =>
            if d = (i : Int) ∧ s = msec then metaSector (-1) 0 else dsk.contents d s,
          trace := (true, (i : Int), msec) :: dsk.trace }
      D msec (i + 1) (fun d => hw d)
    refine ⟨dsk', e, fun d => (hwk d).trans rfl, fun d => (hrk d).trans rfl, ?_⟩
    intro d s
    rw [hc d s]
    dsimp only
    push_cast
    by_cases h1 : (i : Int) + 1 ≤ d ∧ d < (D : Int) ∧ s = msec
    · rw [if_pos h1, if_pos (by omega : (i : Int) ≤ d ∧ d < (D : Int) ∧ s = msec)]
    · rw [if_neg h1]
      by_cases h2 : d = (i : Int) ∧ s = msec
      · rw [if_pos h2,
          if_pos (by
            refine ⟨by omega, by omega, h2.2⟩)]
      · rw [if_neg h2, if_neg (by
          intro hcon
          rcases hcon with ⟨ha, hb, hcs⟩
          rcases Int.lt_or_le (i : Int) d with hlt | hle
          · exact h1 ⟨by omega, hb, hcs⟩
          · exact h2 ⟨by omega, hcs⟩)]
  · rw [createLoop, dif_neg h]
    refine ⟨dsk, rfl, fun _ => rfl, fun _ => rfl, ?_⟩
    intro d s
    rw [if_neg (by omega)]
termination_by D - i

/-- Unfolding of the device-descriptor validation. -/
theorem validate_true_iff (dev : TBlkDev) :
    validate_t_blk_dev dev = true ↔
      (3 ≤ dev.m_Devices ∧ dev.m_Devices ≤ 16 ∧
       2048 ≤ dev.m_Sectors ∧ dev.m_Sectors ≤ 2097152) := by
  unfold validate_t_blk_dev MAX_RAID_DEVICES MIN_DEVICE_SECTORS MAX_DEVICE_SECTORS
  split_ifs <;> constructor <;> intro hx <;> first | omega | simp_all

/-- start on a stopped volume over a healthy quorum whose three votes agree
with timestamp t and no failed drive: assembles to RAID_OK with timestamp t,
touching the disk only through three quorum reads. -/
theorem start_all_ok (vol : CRaidVolume) (dev : TBlkDev) (dsk : DiskState) (t : Int)
    (hvol : vol.m_dev = none)
    (hval : validate_t_blk_dev dev = true)
    (hlive : ∀ d : Int, 0 ≤ d → d < 3 → dsk.readOk d = true)
    (hmeta : ∀ d : Int, 0 ≤ d → d < 3 →
      dsk.contents d (dev.m_Sectors - 1) = metaSector (-1) t)
    (ht1 : -2147483648 ≤ t) (ht2 : t < 2147483648) :
    vol.start dev dsk =
      (RAID_OK,
       { vol with
          m_dev := some dev
          m_status := RAID_OK
          m_raid_size := dev.m_Devices * (dev.m_Sectors - 1) - (dev.m_Sectors - 1)
          m_metadata_sector := dev.m_Sectors - 1
          m_failed_drive_i := -1
          m_timestamp := t },
       { dsk with trace :=
          (false, 2, dev.m_Sectors - 1) :: (false, 1, dev.m_Sectors - 1) ::
            (false, 0, dev.m_Sectors - 1) :: dsk.trace }) := by
  have hfd : decI (encI (-1)) = -1 := decI_encI (-1) (by norm_num) (by norm_num)
  have hts : decI (encI t) = t := decI_encI t ht1 ht2
  have h0 := hlive 0 (by norm_num) (by norm_num)
  have h1 := hlive 1 (by norm_num) (by norm_num)
  have h2 := hlive 2 (by norm_num) (by norm_num)
  have m0 := hmeta 0 (by norm_num) (by norm_num)
  have m1 := hmeta 1 (by norm_num) (by norm_num)
  have m2 := hmeta 2 (by norm_num) (by norm_num)
  simp [CRaidVolume.start, hvol, hval, metaReadLoop, devRead, h0, h1, h2, m0, m1, m2,
    metaSector, updArr, hfd, hts, RAID_OK]

/-- stop from RAID_OK with all writes succeeding: persists the incremented
timestamp and the current failed-drive field (-1 is not assumed here) to the
metadata sector of every device, releases the in-memory state and returns
RAID_STOPPED. -/
theorem stop_from_ok (vol : CRaidVolume) (dev : TBlkDev) (dsk : DiskState)
    (hdev : vol.m_dev = some dev)
    (hst : vol.m_status = RAID_OK)
    (hw : ∀ d : Int, dsk.writeOk d = true) :
    ∃ vol' dsk', vol.stop dsk = (RAID_STOPPED, vol', dsk') ∧
      vol'.m_dev = none ∧ vol'.m_status = RAID_STOPPED ∧
      (∀ d, dsk'.writeOk d = dsk.writeOk d) ∧
      (∀ d, dsk'.readOk d = dsk.readOk d) ∧
      (∀ d s : Int, dsk'.contents d s =
        if 0 ≤ d ∧ d < dev.m_Devices ∧ s = vol.m_metadata_sector
        then metaSector vol.m_failed_drive_i (vol.m_timestamp + 1)
        else dsk.contents d s) := by
  obtain ⟨dsk', e, hwk, hrk, hc⟩ := stopLoop_all_ok
    { vol with
        m_timestamp := vol.m_timestamp + 1
        m_buffer := metaSector vol.m_failed_drive_i (vol.m_timestamp + 1) }
    dsk (metaSector vol.m_failed_drive_i (vol.m_timestamp + 1)) 0 hw
  refine ⟨clear_raid_volume_data
      { vol with
          m_timestamp := vol.m_timestamp + 1
          m_buffer := metaSector vol.m_failed_drive_i (vol.m_timestamp + 1) },
    dsk', ?_, rfl, rfl, hwk, hrk, ?_⟩
  · rw [CRaidVolume.stop, if_neg (by rw [hst]; simp [RAID_OK, RAID_STOPPED, RAID_FAILED])]
    dsimp only
    rw [e]
  · intro d s
    rw [hc d s]
    simp only [CRaidVolume.devices, hdev, Option.getD_some]

/-- Invariant of fault-free start/stop cycling: the volume keeps returning to
a released state and every device's metadata sector carries timestamp
t0 + n and failed drive -1 after n rounds. -/
theorem cyclesN_metadata (dev : TBlkDev) (p0 : CRaidVolume × DiskState) (t0 : Int)
    (hval : validate_t_blk_dev dev = true)
    (hvol : p0.1.m_dev = none)
    (hflags : ∀ d : Int, p0.2.readOk d = true ∧ p0.2.writeOk d = true)
    (hmeta : ∀ d : Int, 0 ≤ d → d < dev.m_Devices →
      p0.2.contents d (dev.m_Sectors - 1) = metaSector (-1) t0)
    (hlow : -2147483648 ≤ t0) :
    ∀ n : Nat, t0 + n < 2147483648 →
      (cyclesN dev p0 n).1.m_dev = none ∧
      (∀ d : Int, (cyclesN dev p0 n).2.readOk d = true ∧
        (cyclesN dev p0 n).2.writeOk d = true) ∧
      (∀ d : Int, 0 ≤ d → d < dev.m_Devices →
        (cyclesN dev p0 n).2.contents d (dev.m_Sectors - 1) = metaSector (-1) (t0 + n)) := by
  intro n
  induction n with
  | zero =>
    intro _
    exact ⟨hvol, hflags, by simpa using hmeta⟩
  | succ n ih =>
    intro hbound
    obtain ⟨ih1, ih2, ih3⟩ := ih (by omega)
    have hD3 : 3 ≤ dev.m_Devices := ((validate_true_iff dev).mp hval).1
    have hstart := start_all_ok (cyclesN dev p0 n).1 dev (cyclesN dev p0 n).2 (t0 + n)
      ih1 hval (fun d h1 h2 => (ih2 d).1)
      (fun d h1 h2 => ih3 d h1 (by omega)) (by omega) (by omega)
    have hstop := stop_from_ok
      { (cyclesN dev p0 n).1 with
          m_dev := some dev
          m_status := RAID_OK
          m_raid_size := dev.m_Devices * (dev.m_Sectors - 1) - (dev.m_Sectors - 1)
          m_metadata_sector := dev.m_Sectors - 1
          m_failed_drive_i := -1
          m_timestamp := t0 + n }
      dev
      { (cyclesN dev p0 n).2 with trace :=
          (false, 2, dev.m_Sectors - 1) :: (false, 1, dev.m_Sectors - 1) ::
            (false, 0, dev.m_Sectors - 1) :: (cyclesN dev p0 n).2.trace }
      rfl rfl (fun d => (ih2 d).2)
    obtain ⟨vol', dsk', he, hnone, hstp, hwk, hrk, hc⟩ := hstop
    have hcyc : cyclesN dev p0 (n + 1) = (vol', dsk') := by
      show cycleOnce dev (cyclesN dev p0 n) = (vol', dsk')
      unfold cycleOnce
      rw [hstart]
      dsimp only
      rw [he]
    rw [hcyc]
    refine ⟨hnone, ?_, ?_⟩
    · intro d
      exact ⟨(hrk d).trans ((ih2 d).1), (hwk d).trans ((ih2 d).2)⟩
    · intro d h1 h2
      rw [hc d (dev.m_Sectors - 1)]
      dsimp only
      rw [if_pos ⟨h1, h2, rfl⟩]
      have : t0 + (n : Int) + 1 = t0 + ((n + 1 : Nat) : Int) := by push_cast; ring
      rw [this]

/-- C9: across fault-free start/stop cycles from a consistently labelled disk
(every metadata sector holding timestamp t0, no failed drive), the timestamp
persisted by the n-th successful stop is t0 + n on every device, strictly
greater than the timestamp persisted by the (n-1)-th stop. -/
theorem C9_timestamp_monotonicity (dev : TBlkDev) (p0 : CRaidVolume × DiskState) (t0 : Int)
    (hval : validate_t_blk_dev dev = true)
    (hvol : p0.1.m_dev = none)
    (hflags : ∀ d : Int, p0.2.readOk d = true ∧ p0.2.writeOk d = true)
    (hmeta : ∀ d : Int, 0 ≤ d → d < dev.m_Devices →
      p0.2.contents d (dev.m_Sectors - 1) = metaSector (-1) t0)
    (hlow : -2147483648 ≤ t0)
    (n : Nat) (hn : 1 ≤ n) (hbound : t0 + n < 2147483648) :
    ∀ d : Int, 0 ≤ d → d < dev.m_Devices →
      decI ((cyclesN dev p0 n).2.contents d (dev.m_Sectors - 1)).w1 = t0 + n ∧
      decI ((cyclesN dev p0 (n - 1)).2.contents d (dev.m_Sectors - 1)).w1 <
        decI ((cyclesN dev p0 n).2.contents d (dev.m_Sectors - 1)).w1 := by
  intro d h1 h2
  obtain ⟨-, -, hm⟩ := cyclesN_metadata dev p0 t0 hval hvol hflags hmeta hlow n hbound
  obtain ⟨-, -, hm'⟩ := cyclesN_metadata dev p0 t0 hval hvol hflags hmeta hlow (n - 1)
    (by omega)
  have e1 : decI ((cyclesN dev p0 n).2.contents d (dev.m_Sectors - 1)).w1 = t0 + n := by
    rw [hm d h1 h2]
    exact decI_encI _ (by omega) (by omega)
  have e2 : decI ((cyclesN dev p0 (n - 1)).2.contents d (dev.m_Sectors - 1)).w1 =
      t0 + (n - 1 : Nat) := by
    rw [hm' d h1 h2]
    exact decI_encI _ (by omega) (by omega)
  refine ⟨e1, ?_⟩
  rw [e1, e2]
  have : ((n - 1 : Nat) : Int) = (n : Int) - 1 := by omega
  omega

/-- Witness for C9 at D = 3, S = 2048, base timestamp 0, first cycle. -/
theorem C9_timestamp_monotonicity_witness :
    (validate_t_blk_dev wDev3 = true ∧ wVol.m_dev = none ∧ (1:Nat) ≤ 1 ∧
      (0:Int) + (1:Nat) < 2147483648 ∧ (0:Int) ≤ 0 ∧ (0:Int) < wDev3.m_Devices) ∧
    (decI ((cyclesN wDev3 (wVol, wDiskMeta0) 1).2.contents 0 (wDev3.m_Sectors - 1)).w1 =
        0 + (1:Nat) ∧
     decI ((cyclesN wDev3 (wVol, wDiskMeta0) (1 - 1)).2.contents 0
         (wDev3.m_Sectors - 1)).w1 <
       decI ((cyclesN wDev3 (wVol, wDiskMeta0) 1).2.contents 0 (wDev3.m_Sectors - 1)).w1) :=
  ⟨⟨by decide, rfl, le_rfl, by norm_num, le_rfl, by decide⟩,
   C9_timestamp_monotonicity wDev3 (wVol, wDiskMeta0) 0 (by decide) rfl
     (fun d => ⟨rfl, rfl⟩) (fun d _ _ => rfl) (by norm_num) 1 le_rfl (by norm_num)
     0 le_rfl (by decide)⟩


/-- resyncDataLoop with healthy reads everywhere and a writable replacement
drive: rebuilds every remaining row of the failed drive from the xor of the
other drives and reports no error. -/
theorem resyncDataLoop_ok (vol : CRaidVolume) (dsk : DiskState) (i : Int)
    (hr : ∀ d : Int, dsk.readOk d = true)
    (hwk : dsk.writeOk vol.m_failed_drive_i = true) :
    ∃ dsk', resyncDataLoop vol dsk i = (none, dsk') ∧
      (∀ d, dsk'.writeOk d = dsk.writeOk d) ∧
      (∀ d, dsk'.readOk d = dsk.readOk d) ∧
      (∀ d s : Int, dsk'.contents d s =
        if d = vol.m_failed_drive_i ∧ i ≤ s ∧ s < vol.sectors - 1
        then rowXorExcept dsk vol.devices.toNat vol.m_failed_drive_i s
        else dsk.contents d s) := by
  by_cases h : i < vol.sectors - 1
  · obtain ⟨tr, ex⟩ := xor_read_loop_ok dsk vol.devices.toNat vol.m_failed_drive_i i 0
      zeroSector (fun d _ _ _ => hr d)
    have step : resyncDataLoop vol dsk i = resyncDataLoop vol
        { dsk with
            contents := fun d s =>
              if d = vol.m_failed_drive_i ∧ s = i
              then rowXorExcept dsk vol.devices.toNat vol.m_failed_drive_i i
              else dsk.contents d s,
            trace := (true, vol.m_failed_drive_i, i) :: tr }
        (i + 1) := by
      rw [resyncDataLoop, dif_pos h, xor_read_without_sector, ex]
      dsimp only
      rw [if_neg (by norm_num : ¬ (0:Int) ≤ -1)]
      simp only [devWrite, hwk, if_true]
      rw [rowXorExcept, xib_zero_left]
    rw [step]
    obtain ⟨dsk', e, hwk', hrk', hc⟩ := resyncDataLoop_ok vol
      { dsk with
          contents := fun d s =>
            if d = vol.m_failed_drive_i ∧ s = i
            then rowXorExcept dsk vol.devices.toNat vol.m_failed_drive_i i
            else dsk.contents d s,
          trace := (true, vol.m_failed_drive_i, i) :: tr }
      (i + 1) (fun d => hr d) hwk
    refine ⟨dsk', e, fun d => (hwk' d).trans rfl, fun d => (hrk' d).trans rfl, ?_⟩
    intro d s
    rw [hc d s]
    dsimp only
    by_cases h1 : d = vol.m_failed_drive_i ∧ i + 1 ≤ s ∧ s < vol.sectors - 1
    · rw [if_pos h1, if_pos (by omega : d = vol.m_failed_drive_i ∧ i ≤ s ∧
        s < vol.sectors - 1)]
      unfold rowXorExcept
      apply xfr_congr
      intro dd _ _
      by_cases hdd : (dd : Int) = vol.m_failed_drive_i
      · rw [if_pos hdd, if_pos hdd]
      · rw [if_neg hdd, if_neg hdd]
        dsimp only
        rw [if_neg (by intro hcon; exact hdd (by rw [hcon.1]))]
    · rw [if_neg h1]
      by_cases h2 : d = vol.m_failed_drive_i ∧ s = i
      · rw [if_pos h2, if_pos (by omega : d = vol.m_failed_drive_i ∧ i ≤ s ∧
          s < vol.sectors - 1)]
        rw [h2.2]
      · rw [if_neg h2, if_neg (by omega)]
  · rw [resyncDataLoop, dif_neg h]
    refine ⟨dsk, rfl, fun _ => rfl, fun _ => rfl, ?_⟩
    intro d s
    rw [if_neg (by omega)]
termination_by (vol.sectors - 1 - i).toNat
decreasing_by
  omega

/-- resyncMetaLoop when every write succeeds: the fresh metadata buffer lands
on every device in [i, D) other than the replaced drive. -/
theorem resyncMetaLoop_ok (vol : CRaidVolume) (dsk : DiskState) (buf : Sector) (i : Int)
    (hw : ∀ d : Int, dsk.writeOk d = true) :
    ∃ dsk', resyncMetaLoop vol dsk buf i = (none, dsk') ∧
      (∀ d, dsk'.writeOk d = dsk.writeOk d) ∧
      (∀ d, dsk'.readOk d = dsk.readOk d) ∧
      (∀ d s : Int, dsk'.contents d s =
        if i ≤ d ∧ d < vol.devices ∧ d ≠ vol.m_failed_drive_i ∧ s = vol.m_metadata_sector
        then buf else dsk.contents d s) := by
  by_cases h : i < vol.devices
  · by_cases hk : i = vol.m_failed_drive_i
    · have step : resyncMetaLoop vol dsk buf i = resyncMetaLoop vol dsk buf (i + 1) := by
        rw [resyncMetaLoop, dif_pos h, if_pos hk]
      rw [step]
      obtain ⟨dsk', e, hwk, hrk, hc⟩ := resyncMetaLoop_ok vol dsk buf (i + 1) hw
      refine ⟨dsk', e, hwk, hrk, ?_⟩
      intro d s
      rw [hc d s]
      by_cases h1 : i + 1 ≤ d ∧ d < vol.devices ∧ d ≠ vol.m_failed_drive_i ∧
          s = vol.m_metadata_sector
      · rw [if_pos h1, if_pos (by omega : i ≤ d ∧ d < vol.devices ∧
          d ≠ vol.m_failed_drive_i ∧ s = vol.m_metadata_sector)]
      · rw [if_neg h1, if_neg (by omega)]
    · have step : resyncMetaLoop vol dsk buf i = resyncMetaLoop vol
          { dsk with
              contents := fun d s =>
                if d = i ∧ s = vol.m_metadata_sector then buf else dsk.contents d s,
              trace := (true, i, vol.m_metadata_sector) :: dsk.trace }
          buf (i + 1) := by
        rw [resyncMetaLoop, dif_pos h, if_neg hk]
        simp [devWrite, hw i]
      rw [step]
      obtain ⟨dsk', e, hwk, hrk, hc⟩ := resyncMetaLoop_ok vol
        { dsk with
            contents := fun d s =>
              if d = i ∧ s = vol.m_metadata_sector then buf else dsk.contents d s,
            trace := (true, i, vol.m_metadata_sector) :: dsk.trace }
        buf (i + 1) (fun d => hw d)
      refine ⟨dsk', e, fun d => (hwk d).trans rfl, fun d => (hrk d).trans rfl, ?_⟩
      intro d s
      rw [hc d s]
      dsimp only
      by_cases h1 : i + 1 ≤ d ∧ d < vol.devices ∧ d ≠ vol.m_failed_drive_i ∧
          s = vol.m_metadata_sector
      · rw [if_pos h1, if_pos (by omega)]
      · rw [if_neg h1]
        by_cases h2 : d = i ∧ s = vol.m_metadata_sector
        · rw [if_pos h2, if_pos (by
            refine ⟨by omega, by omega, ?_, h2.2⟩
            rw [h2.1]
            exact hk)]
        · rw [if_neg h2, if_neg (by
            intro hcon
            rcases hcon with ⟨ha, hb, hd2, hcs⟩
            rcases Int.lt_or_le i d with hlt | hle
            · exact h1 ⟨by omega, hb, hd2, hcs⟩
            · exact h2 ⟨by omega, hcs⟩)]
  · rw [resyncMetaLoop, dif_neg h]
    refine ⟨dsk, rfl, fun _ => rfl, fun _ => rfl, ?_⟩
    intro d s
    rw [if_neg (by omega)]
termination_by (vol.devices - i).toNat
decreasing_by
  all_goals omega

/-- resyncMetaLoop when exactly one non-replaced device j rejects writes:
the sweep stops at j, declaring the volume DEGRADED with failed drive j;
devices before j (other than the replaced drive) already hold the fresh
metadata. -/
theorem resyncMetaLoop_fail (vol : CRaidVolume) (dsk : DiskState) (buf : Sector)
    (j : Int) (i : Int)
    (hij : i ≤ j) (hjD : j < vol.devices) (hjk : j ≠ vol.m_failed_drive_i)
    (hwj : dsk.writeOk j = false)
    (hw : ∀ d : Int, d ≠ j → dsk.writeOk d = true) :
    ∃ dsk', resyncMetaLoop vol dsk buf i =
      (some (RAID_DEGRADED,
             { vol with m_status := RAID_DEGRADED, m_failed_drive_i := j }), dsk') ∧
      (∀ d s : Int, dsk'.contents d s =
        if i ≤ d ∧ d < j ∧ d ≠ vol.m_failed_drive_i ∧ s = vol.m_metadata_sector
        then buf else dsk.contents d s) := by
  have h : i < vol.devices := by omega
  by_cases hji : j = i
  · subst hji
    have step : resyncMetaLoop vol dsk buf j =
        (some (RAID_DEGRADED,
               { vol with m_status := RAID_DEGRADED, m_failed_drive_i := j }),
         { dsk with trace := (true, j, vol.m_metadata_sector) :: dsk.trace }) := by
      rw [resyncMetaLoop, dif_pos h, if_neg hjk]
      simp [devWrite, hwj]
    refine ⟨_, step, ?_⟩
    intro d s
    rw [if_neg (by omega)]
  · by_cases hk : i = vol.m_failed_drive_i
    · have step : resyncMetaLoop vol dsk buf i = resyncMetaLoop vol dsk buf (i + 1) := by
        rw [resyncMetaLoop, dif_pos h, if_pos hk]
      rw [step]
      obtain ⟨dsk', e, hc⟩ := resyncMetaLoop_fail vol dsk buf j (i + 1)
        (by omega) hjD hjk hwj hw
      refine ⟨dsk', e, ?_⟩
      intro d s
      rw [hc d s]
      by_cases h1 : i + 1 ≤ d ∧ d < j ∧ d ≠ vol.m_failed_drive_i ∧
          s = vol.m_metadata_sector
      · rw [if_pos h1, if_pos (by omega)]
      · rw [if_neg h1, if_neg (by omega)]
    · have step : resyncMetaLoop vol dsk buf i = resyncMetaLoop vol
          { dsk with
              contents := fun d s =>
                if d = i ∧ s = vol.m_metadata_sector then buf else dsk.contents d s,
              trace := (true, i, vol.m_metadata_sector) :: dsk.trace }
          buf (i + 1) := by
        rw [resyncMetaLoop, dif_pos h, if_neg hk]
        simp [devWrite, hw i (by omega)]
      rw [step]
      obtain ⟨dsk', e, hc⟩ := resyncMetaLoop_fail vol
        { dsk with
            contents := fun d s =>
              if d = i ∧ s = vol.m_metadata_sector then buf else dsk.contents d s,
            trace := (true, i, vol.m_metadata_sector) :: dsk.trace }
        buf j (i + 1) (by omega) hjD hjk hwj (fun d hd => hw d hd)
      refine ⟨dsk', e, ?_⟩
      intro d s
      rw [hc d s]
      dsimp only
      by_cases h1 : i + 1 ≤ d ∧ d < j ∧ d ≠ vol.m_failed_drive_i ∧
          s = vol.m_metadata_sector
      · rw [if_pos h1, if_pos (by omega)]
      · rw [if_neg h1]
        by_cases h2 : d = i ∧ s = vol.m_metadata_sector
        · rw [if_pos h2, if_pos (by
            refine ⟨by omega, by omega, ?_, h2.2⟩
            rw [h2.1]
            exact hk)]
        · rw [if_neg h2, if_neg (by
            intro hcon
            rcases hcon with ⟨ha, hb, hd2, hcs⟩
            rcases Int.lt_or_le i d with hlt | hle
            · exact h1 ⟨by omega, hb, hd2, hcs⟩
            · exact h2 ⟨by omega, hcs⟩)]
termination_by (vol.devices - i).toNat
decreasing_by
  all_goals omega

/-! ### Claim C8 -/

/-- C8: resync from DEGRADED.  With every device operation succeeding, each
non-metadata sector of the failed drive is rebuilt as the xor of the other
drives' sectors, fresh metadata (failed_drive = -1, timestamp unchanged) is
persisted to the replaced drive and then to every other drive, and resync
returns RAID_OK with in-memory failed_drive -1.  If instead the metadata
write to a single non-replaced device j fails (everything else succeeding),
resync returns RAID_DEGRADED with j as the new failed drive - and the
replaced drive already holds the fresh metadata, it having been written
first. -/
theorem C8_resync (vol : CRaidVolume) (dev : TBlkDev) (dsk : DiskState)
    (hdev : vol.m_dev = some dev)
    (hst : vol.m_status = RAID_DEGRADED)
    (hms : vol.m_metadata_sector = dev.m_Sectors - 1)
    (hk0 : 0 ≤ vol.m_failed_drive_i) (hkD : vol.m_failed_drive_i < dev.m_Devices) :
    ((∀ d : Int, dsk.readOk d = true) → (∀ d : Int, dsk.writeOk d = true) →
      ∃ dsk', vol.resync dsk =
        (RAID_OK, { vol with m_status := RAID_OK, m_failed_drive_i := -1 }, dsk') ∧
        (∀ s : Int, 0 ≤ s → s < dev.m_Sectors - 1 →
          dsk'.contents vol.m_failed_drive_i s =
            rowXorExcept dsk dev.m_Devices.toNat vol.m_failed_drive_i s) ∧
        (∀ d : Int, 0 ≤ d → d < dev.m_Devices →
          dsk'.contents d (dev.m_Sectors - 1) = metaSector (-1) vol.m_timestamp)) ∧
    (∀ j : Int, 0 ≤ j → j < dev.m_Devices → j ≠ vol.m_failed_drive_i →
      (∀ d : Int, dsk.readOk d = true) → dsk.writeOk j = false →
      (∀ d : Int, d ≠ j → dsk.writeOk d = true) →
      ∃ dsk', vol.resync dsk =
        (RAID_DEGRADED,
         { vol with m_status := RAID_DEGRADED, m_failed_drive_i := j }, dsk') ∧
        dsk'.contents vol.m_failed_drive_i (dev.m_Sectors - 1) =
          metaSector (-1) vol.m_timestamp) := by
  have hnogo : ¬ (vol.m_status = RAID_OK ∨ vol.m_status = RAID_FAILED ∨
      vol.m_status = RAID_STOPPED) := by
    rw [hst]
    simp [RAID_OK, RAID_FAILED, RAID_STOPPED, RAID_DEGRADED]
  have hsecs : vol.sectors = dev.m_Sectors := by
    simp [CRaidVolume.sectors, hdev]
  have hdevs : vol.devices = dev.m_Devices := by
    simp [CRaidVolume.devices, hdev]
  constructor
  · intro hr hw
    obtain ⟨dsk1, e1, hwk1, hrk1, hc1⟩ := resyncDataLoop_ok vol dsk 0 hr
      (hw vol.m_failed_drive_i)
    obtain ⟨dsk3, e3, hwk3, hrk3, hc3⟩ := resyncMetaLoop_ok vol
      { dsk1 with
          contents := fun d s =>
            if d = vol.m_failed_drive_i ∧ s = vol.m_metadata_sector
            then metaSector (-1) vol.m_timestamp else dsk1.contents d s,
          trace := (true, vol.m_failed_drive_i, vol.m_metadata_sector) :: dsk1.trace }
      (metaSector (-1) vol.m_timestamp) 0
      (fun d => ((hwk1 d).symm ▸ hw d : _))
    refine ⟨dsk3, ?_, ?_, ?_⟩
    · rw [CRaidVolume.resync, if_neg hnogo, e1]
      dsimp only
      have hwmid : devWrite dsk1 vol.m_failed_drive_i vol.m_metadata_sector
          (metaSector (-1) vol.m_timestamp) =
          (true,
           { dsk1 with
              contents := fun d s =>
                if d = vol.m_failed_drive_i ∧ s = vol.m_metadata_sector
                then metaSector (-1) vol.m_timestamp else dsk1.contents d s,
              trace := (true, vol.m_failed_drive_i, vol.m_metadata_sector) ::
                dsk1.trace }) := by
        rw [devWrite, if_pos (by rw [hwk1]; exact hw vol.m_failed_drive_i)]
      rw [hwmid]
      dsimp only
      rw [e3]
    · intro s hs0 hs1
      rw [hc3, if_neg (by intro hcon; exact hcon.2.2.1 rfl)]
      dsimp only
      rw [if_neg (by
        intro hcon
        rw [hms] at hcon
        omega)]
      rw [hc1, if_pos ⟨rfl, by omega, by rw [hsecs]; omega⟩, hdevs]
    · intro d hd0 hdD
      by_cases hdk : d = vol.m_failed_drive_i
      · rw [hc3, if_neg (by intro hcon; exact hcon.2.2.1 hdk)]
        dsimp only
        rw [if_pos ⟨hdk, hms.symm⟩]
      · rw [hc3, if_pos ⟨hd0, by rw [hdevs]; exact hdD, hdk, hms.symm⟩]
  · intro j hj0 hjD hjk hr hwj hw
    obtain ⟨dsk1, e1, hwk1, hrk1, hc1⟩ := resyncDataLoop_ok vol dsk 0 hr
      (hw vol.m_failed_drive_i (by omega))
    obtain ⟨dsk3, e3, hc3⟩ := resyncMetaLoop_fail vol
      { dsk1 with
          contents := fun d s =>
            if d = vol.m_failed_drive_i ∧ s = vol.m_metadata_sector
            then metaSector (-1) vol.m_timestamp else dsk1.contents d s,
          trace := (true, vol.m_failed_drive_i, vol.m_metadata_sector) :: dsk1.trace }
      (metaSector (-1) vol.m_timestamp) j 0 hj0 (by rw [hdevs]; exact hjD) hjk
      ((hwk1 j).symm ▸ hwj)
      (fun d hd => ((hwk1 d).symm ▸ hw d hd : _))
    refine ⟨dsk3, ?_, ?_⟩
    · rw [CRaidVolume.resync, if_neg hnogo, e1]
      dsimp only
      have hwmid : devWrite dsk1 vol.m_failed_drive_i vol.m_metadata_sector
          (metaSector (-1) vol.m_timestamp) =
          (true,
           { dsk1 with
              contents := fun d s =>
                if d = vol.m_failed_drive_i ∧ s = vol.m_metadata_sector
                then metaSector (-1) vol.m_timestamp else dsk1.contents d s,
              trace := (true, vol.m_failed_drive_i, vol.m_metadata_sector) ::
                dsk1.trace }) := by
        rw [devWrite, if_pos (by rw [hwk1]; exact hw vol.m_failed_drive_i (by omega))]
      rw [hwmid]
      dsimp only
      rw [e3]
    · rw [hc3, if_neg (by intro hcon; exact hcon.2.2.1 rfl)]
      dsimp only
      rw [if_pos ⟨rfl, hms.symm⟩]

/-- Witness for C8: successful resync of the degraded 3-device volume with
failed drive 0 on an all-zero healthy disk. -/
theorem C8_resync_witness :
    (wVolDeg.m_dev = some wDev3 ∧ wVolDeg.m_status = RAID_DEGRADED ∧
      (0:Int) ≤ wVolDeg.m_failed_drive_i ∧ wVolDeg.m_failed_drive_i < wDev3.m_Devices) ∧
    (∃ dsk', wVolDeg.resync wDiskZero =
      (RAID_OK, { wVolDeg with m_status := RAID_OK, m_failed_drive_i := -1 }, dsk') ∧
      (∀ s : Int, 0 ≤ s → s < wDev3.m_Sectors - 1 →
        dsk'.contents wVolDeg.m_failed_drive_i s =
          rowXorExcept wDiskZero wDev3.m_Devices.toNat wVolDeg.m_failed_drive_i s) ∧
      (∀ d : Int, 0 ≤ d → d < wDev3.m_Devices →
        dsk'.contents d (wDev3.m_Sectors - 1) = metaSector (-1) wVolDeg.m_timestamp)) :=
  ⟨⟨rfl, rfl, by decide, by decide⟩,
   (C8_resync wVolDeg wDev3 wDiskZero rfl rfl rfl (by decide) (by decide)).1
     (fun d => rfl) (fun d => rfl)⟩

/-! ### Int-level geometry consequences -/

theorem dataDrive_eq (D x : Int) (hD : 2 ≤ D) (hx : 0 ≤ x) :
    dataDrive D x = ((physN D.toNat x.toNat % D.toNat : Nat) : Int) := by
  rw [dataDrive, rstp_eq_physN D x hD hx]

theorem dataSec_eq (D x : Int) (hD : 2 ≤ D) (hx : 0 ≤ x) :
    dataSec D x = ((physN D.toNat x.toNat / D.toNat : Nat) : Int) := by
  rw [dataSec, rstp_eq_physN D x hD hx]

theorem parityDrive_eq (D x : Int) (hD : 2 ≤ D) (hx : 0 ≤ x) :
    parityDrive D x = (((physN D.toNat x.toNat / D.toNat) % D.toNat : Nat) : Int) := by
  rw [parityDrive, rstp_eq_physN D x hD hx]

/-- Distinct logical sectors have distinct data positions. -/
theorem dataPos_inj_int (D : Int) (hD : 2 ≤ D) {x y : Int} (hx : 0 ≤ x) (hy : 0 ≤ y)
    (hne : x ≠ y) : ¬ (dataDrive D x = dataDrive D y ∧ dataSec D x = dataSec D y) := by
  intro ⟨h1, h2⟩
  rw [dataDrive_eq D x hD hx, dataDrive_eq D y hD hy] at h1
  rw [dataSec_eq D x hD hx, dataSec_eq D y hD hy] at h2
  obtain ⟨E, hE⟩ : ∃ E : Nat, D.toNat = E + 2 := ⟨D.toNat - 2, by omega⟩
  refine dposN_inj D.toNat (show x.toNat ≠ y.toNat by omega) ?_
  simp only [Prod.mk.injEq]
  exact ⟨by omega, by omega⟩

/-- A data position is never any stripe's parity position. -/
theorem dataPos_ne_parityPos_int (D : Int) (hD : 2 ≤ D) {x y : Int} (hx : 0 ≤ x)
    (hy : 0 ≤ y) :
    ¬ (dataDrive D x = parityDrive D y ∧ dataSec D x = dataSec D y) := by
  intro ⟨h1, h2⟩
  rw [dataDrive_eq D x hD hx, parityDrive_eq D y hD hy] at h1
  rw [dataSec_eq D x hD hx, dataSec_eq D y hD hy] at h2
  obtain ⟨E, hE⟩ : ∃ E : Nat, D.toNat = E + 2 := ⟨D.toNat - 2, by omega⟩
  refine dposN_ne_pposN E x.toNat y.toNat ?_
  rw [← hE]
  simp only [Prod.mk.injEq]
  exact ⟨by omega, by omega⟩

/-- The parity drive of a stripe sits in [0, D). -/
theorem parityDrive_bounds (D x : Int) (hD : 2 ≤ D) (hx : 0 ≤ x) :
    0 ≤ parityDrive D x ∧ parityDrive D x < D := by
  rw [parityDrive_eq D x hD hx]
  have := Nat.mod_lt (physN D.toNat x.toNat / D.toNat) (show 0 < D.toNat by omega)
  omega

/-- The data drive of a logical sector sits in [0, D). -/
theorem dataDrive_bounds (D x : Int) (hD : 2 ≤ D) (hx : 0 ≤ x) :
    0 ≤ dataDrive D x ∧ dataDrive D x < D := by
  rw [dataDrive_eq D x hD hx]
  have := Nat.mod_lt (physN D.toNat x.toNat) (show 0 < D.toNat by omega)
  omega

/-- The data drive differs from the stripe's parity drive. -/
theorem dataDrive_ne_parityDrive (D x : Int) (hD : 2 ≤ D) (hx : 0 ≤ x) :
    dataDrive D x ≠ parityDrive D x := by
  rw [dataDrive_eq D x hD hx, parityDrive_eq D x hD hx]
  obtain ⟨E, hE⟩ : ∃ E : Nat, D.toNat = E + 2 := ⟨D.toNat - 2, by omega⟩
  have := physN_data_ne_parity E x.toNat
  rw [← hE] at this
  omega

/-- Device-sector bound: logical sectors below (D-1)(S-1) live strictly above
no metadata row, i.e. in device sectors below S-1. -/
theorem dataSec_bounds (D S x : Int) (hD : 2 ≤ D) (hx : 0 ≤ x)
    (hxL : x < (D - 1) * (S - 1)) (hS : 1 ≤ S) :
    0 ≤ dataSec D x ∧ dataSec D x < S - 1 := by
  rw [dataSec_eq D x hD hx]
  obtain ⟨E, hE⟩ : ∃ E : Nat, D.toNat = E + 2 := ⟨D.toNat - 2, by omega⟩
  obtain ⟨k, hk⟩ : ∃ k : Nat, S - 1 = (k : Int) := ⟨(S - 1).toNat, by omega⟩
  have hxk : x.toNat < (E + 1) * k := by
    have hcast : ((E + 1) * k : Nat) = ((D - 1) * (S - 1) : Int) := by
      push_cast
      rw [hk]
      have : ((E : Int) + 1) = D - 1 := by omega
      rw [this]
    omega
  have h1 := physN_row_lt E k x.toNat hxk
  rw [← hE] at h1
  have h2 : ((physN D.toNat x.toNat / D.toNat : Nat) : Int) < (k : Int) := by
    exact_mod_cast h1
  have h3 : (0 : Int) ≤ ((physN D.toNat x.toNat / D.toNat : Nat) : Int) :=
    Int.ofNat_nonneg _
  omega

/-- readOutN depends only on the disk contents. -/
theorem readOutN_congr (dsk1 dsk2 : DiskState)
    (h : ∀ d s : Int, dsk1.contents d s = dsk2.contents d s) (D : Int) :
    ∀ (k : Nat) (i : Int), readOutN dsk1 D i k = readOutN dsk2 D i k := by
  intro k
  induction k with
  | zero => intro i; rfl
  | succ k ih =>
    intro i
    rw [readOutN, readOutN, h, ih (i + 1)]

/-- readLoop in OK status with healthy devices: returns true, leaves volume
and disk contents unchanged, and appends the contents of the data position of
every addressed logical sector. -/
theorem readLoop_ok (vol : CRaidVolume) (secEnd raid_i : Int) (dsk : DiskState)
    (acc : List Sector)
    (hst : vol.m_status = RAID_OK)
    (hr : ∀ d : Int, dsk.readOk d = true)
    (hend : secEnd ≤ vol.m_raid_size) :
    ∃ tr, readLoop vol dsk raid_i secEnd acc =
      (true, vol, { dsk with trace := tr },
       acc ++ readOutN dsk vol.devices raid_i (secEnd - raid_i).toNat) := by
  by_cases h : raid_i < secEnd
  · obtain ⟨k, hk⟩ : ∃ k : Nat, (secEnd - raid_i).toNat = k + 1 :=
      ⟨(secEnd - raid_i).toNat - 1, by omega⟩
    have hnd : ¬ (vol.m_status = RAID_DEGRADED ∧
        vol.m_failed_drive_i = (raid_sector_to_physical vol.devices raid_i).1) := by
      rw [hst]
      intro hcon
      exact absurd hcon.1 (by norm_num [RAID_OK, RAID_DEGRADED])
    have hnd2 : ¬ (vol.m_status = RAID_DEGRADED ∧
        vol.m_failed_drive_i ≠ (raid_sector_to_physical vol.devices raid_i).1) := by
      rw [hst]
      intro hcon
      exact absurd hcon.1 (by norm_num [RAID_OK, RAID_DEGRADED])
    have step : readLoop vol dsk raid_i secEnd acc = readLoop vol
        { dsk with trace := (false, (raid_sector_to_physical vol.devices raid_i).1,
            (raid_sector_to_physical vol.devices raid_i).2.1) :: dsk.trace }
        (raid_i + 1) secEnd
        (acc ++ [dsk.contents (raid_sector_to_physical vol.devices raid_i).1
          (raid_sector_to_physical vol.devices raid_i).2.1]) := by
      rw [readLoop, dif_pos h, dif_neg (by omega)]
      dsimp only
      rw [if_neg hnd, if_neg hnd2]
      simp only [devRead, hr, if_true]
    rw [step]
    obtain ⟨tr, e⟩ := readLoop_ok vol secEnd (raid_i + 1)
      { dsk with trace := (false, (raid_sector_to_physical vol.devices raid_i).1,
          (raid_sector_to_physical vol.devices raid_i).2.1) :: dsk.trace }
      (acc ++ [dsk.contents (raid_sector_to_physical vol.devices raid_i).1
        (raid_sector_to_physical vol.devices raid_i).2.1])
      hst (fun d => hr d) hend
    refine ⟨tr, ?_⟩
    rw [e]
    have hk2 : (secEnd - (raid_i + 1)).toNat = k := by omega
    rw [hk, hk2, readOutN]
    rw [List.append_assoc]
    rw [readOutN_congr
      { dsk with trace := (false, (raid_sector_to_physical vol.devices raid_i).1,
          (raid_sector_to_physical vol.devices raid_i).2.1) :: dsk.trace }
      dsk (fun _ _ => rfl) vol.devices k (raid_i + 1)]
    rfl
  · refine ⟨dsk.trace, ?_⟩
    rw [readLoop, dif_neg h]
    have : (secEnd - raid_i).toNat = 0 := by omega
    rw [this, readOutN, List.append_nil]
termination_by (secEnd - raid_i).toNat
decreasing_by
  omega

theorem fst_rstp (D x : Int) : (raid_sector_to_physical D x).1 = dataDrive D x := rfl

theorem sndfst_rstp (D x : Int) : (raid_sector_to_physical D x).2.1 = dataSec D x := rfl

theorem sndsnd_rstp (D x : Int) : (raid_sector_to_physical D x).2.2 = parityDrive D x := rfl

theorem getD_tail_sector (l : List Sector) (j : Nat) :
    l.tail.getD j zeroSector = l.getD (j + 1) zeroSector := by
  cases l <;> rfl

theorem headD_getD_sector (l : List Sector) :
    l.headD zeroSector = l.getD 0 zeroSector := by
  cases l <;> rfl

theorem rowXorExcept_congr (d1 d2 : DiskState)
    (h : ∀ a b : Int, d1.contents a b = d2.contents a b) (D : Nat) (excl s : Int) :
    rowXorExcept d1 D excl s = rowXorExcept d2 D excl s := by
  unfold rowXorExcept
  apply xfr_congr
  intro dd _ _
  by_cases hdd : (dd : Int) = excl
  · rw [if_pos hdd, if_pos hdd]
  · rw [if_neg hdd, if_neg hdd, h]

/-- One iteration of the OK-status write path on a healthy disk: the payload
head lands on the data position, the recomputed parity (xor of the row with
the fresh data, parity drive excluded) lands on the parity position, and the
loop proceeds to the next logical sector with the rest of the payload. -/
theorem writeLoop_step (vol : CRaidVolume) (dsk : DiskState) (raid_i secEnd : Int)
    (payload : List Sector)
    (hst : vol.m_status = RAID_OK)
    (hr : ∀ d : Int, dsk.readOk d = true)
    (hw : ∀ d : Int, dsk.writeOk d = true)
    (h : raid_i < secEnd) (hin : raid_i < vol.m_raid_size) :
    ∃ tr3, writeLoop vol dsk raid_i secEnd payload =
      writeLoop vol
        { dsk with
            contents := fun d s =>
              if d = parityDrive vol.devices raid_i ∧ s = dataSec vol.devices raid_i
              then rowXorExcept
                { dsk with
                    contents := fun d2 s2 =>
                      if d2 = dataDrive vol.devices raid_i ∧
                          s2 = dataSec vol.devices raid_i
                      then payload.headD zeroSector else dsk.contents d2 s2 }
                vol.devices.toNat (parityDrive vol.devices raid_i)
                (dataSec vol.devices raid_i)
              else if d = dataDrive vol.devices raid_i ∧ s = dataSec vol.devices raid_i
              then payload.headD zeroSector
              else dsk.contents d s,
            trace := tr3 }
        (raid_i + 1) secEnd payload.tail := by
  have hnd : ¬ (vol.m_status = RAID_DEGRADED ∧
      vol.m_failed_drive_i = dataDrive vol.devices raid_i) := by
    rw [hst]
    intro hcon
    exact absurd hcon.1 (by norm_num [RAID_OK, RAID_DEGRADED])
  have hnd2 : ¬ (vol.m_status = RAID_DEGRADED ∧
      vol.m_failed_drive_i ≠ dataDrive vol.devices raid_i) := by
    rw [hst]
    intro hcon
    exact absurd hcon.1 (by norm_num [RAID_OK, RAID_DEGRADED])
  obtain ⟨tr2, ex2⟩ := xor_read_loop_ok
    { dsk with
        contents := fun d2 s2 =>
          if d2 = dataDrive vol.devices raid_i ∧ s2 = dataSec vol.devices raid_i
          then payload.headD zeroSector else dsk.contents d2 s2,
        trace := (true, dataDrive vol.devices raid_i, dataSec vol.devices raid_i) ::
          dsk.trace }
    vol.devices.toNat (parityDrive vol.devices raid_i) (dataSec vol.devices raid_i) 0
    zeroSector (fun d _ _ _ => hr d)
  refine ⟨(true, parityDrive vol.devices raid_i, dataSec vol.devices raid_i) :: tr2, ?_⟩
  rw [writeLoop, dif_pos h, dif_neg (by omega)]
  dsimp only
  simp only [fst_rstp, sndfst_rstp, sndsnd_rstp]
  rw [if_neg hnd, if_neg hnd2, if_pos hst]
  rw [show devWrite dsk (dataDrive vol.devices raid_i) (dataSec vol.devices raid_i)
        (payload.headD zeroSector) =
      (true,
       { dsk with
          contents := fun d2 s2 =>
            if d2 = dataDrive vol.devices raid_i ∧ s2 = dataSec vol.devices raid_i
            then payload.headD zeroSector else dsk.contents d2 s2,
          trace := (true, dataDrive vol.devices raid_i, dataSec vol.devices raid_i) ::
            dsk.trace }) from by rw [devWrite, if_pos (hw _)]]
  dsimp only
  rw [xor_read_without_sector, ex2]
  dsimp only
  rw [if_neg (show ¬ (0:Int) ≤ -1 by norm_num), xib_zero_left]
  rw [devWrite, if_pos (hw _)]
  rfl

theorem cast_succ_shift (raid_i : Int) (j : Nat) :
    raid_i + ((j + 1 : Nat) : Int) = raid_i + 1 + (j : Int) := by
  push_cast
  ring

/-- writeLoop in OK status with healthy devices: succeeds, keeps the volume
state, writes each payload sector to its data position, touches no position
outside the addressed data and parity cells, and leaves every row that
started parity-consistent - and every addressed row - parity-consistent. -/
theorem writeLoop_ok (vol : CRaidVolume) (secEnd raid_i : Int) (dsk : DiskState)
    (payload : List Sector)
    (hst : vol.m_status = RAID_OK)
    (hr : ∀ d : Int, dsk.readOk d = true)
    (hw : ∀ d : Int, dsk.writeOk d = true)
    (hD : 3 ≤ vol.devices)
    (hi0 : 0 ≤ raid_i)
    (hend : secEnd ≤ vol.m_raid_size) :
    ∃ dsk', writeLoop vol dsk raid_i secEnd payload = (true, vol, dsk') ∧
      (∀ d, dsk'.readOk d = dsk.readOk d) ∧
      (∀ d, dsk'.writeOk d = dsk.writeOk d) ∧
      (∀ dd ss : Int,
        (∀ j : Nat, (j : Int) < secEnd - raid_i →
          ¬(dd = dataDrive vol.devices (raid_i + (j : Int)) ∧
            ss = dataSec vol.devices (raid_i + (j : Int))) ∧
          ¬(dd = parityDrive vol.devices (raid_i + (j : Int)) ∧
            ss = dataSec vol.devices (raid_i + (j : Int)))) →
        dsk'.contents dd ss = dsk.contents dd ss) ∧
      (∀ j : Nat, (j : Int) < secEnd - raid_i →
        dsk'.contents (dataDrive vol.devices (raid_i + (j : Int)))
          (dataSec vol.devices (raid_i + (j : Int))) = payload.getD j zeroSector) ∧
      (∀ r : Int,
        (xorFoldRange (fun dd => dsk.contents dd r) 0 vol.devices.toNat = zeroSector ∨
         ∃ j : Nat, (j : Int) < secEnd - raid_i ∧
           r = dataSec vol.devices (raid_i + (j : Int))) →
        xorFoldRange (fun dd => dsk'.contents dd r) 0 vol.devices.toNat = zeroSector) := by
  by_cases h : raid_i < secEnd
  · obtain ⟨tr3, estep⟩ := writeLoop_step vol dsk raid_i secEnd payload hst hr hw h
      (by omega)
    obtain ⟨dskF, eF, hrkF, hwkF, hframeF, hdataF, hrowsF⟩ := writeLoop_ok vol secEnd
      (raid_i + 1)
      { dsk with
          contents := fun d s =>
            if d = parityDrive vol.devices raid_i ∧ s = dataSec vol.devices raid_i
            then rowXorExcept
              { dsk with
                  contents := fun d2 s2 =>
                    if d2 = dataDrive vol.devices raid_i ∧
                        s2 = dataSec vol.devices raid_i
                    then payload.headD zeroSector else dsk.contents d2 s2 }
              vol.devices.toNat (parityDrive vol.devices raid_i)
              (dataSec vol.devices raid_i)
            else if d = dataDrive vol.devices raid_i ∧ s = dataSec vol.devices raid_i
            then payload.headD zeroSector
            else dsk.contents d s,
          trace := tr3 }
      payload.tail hst (fun d => hr d) (fun d => hw d) hD (by omega) hend
    have hdp : dataDrive vol.devices raid_i ≠ parityDrive vol.devices raid_i :=
      dataDrive_ne_parityDrive vol.devices raid_i (by omega) hi0
    refine ⟨dskF, ?_, fun d => (hrkF d).trans rfl, fun d => (hwkF d).trans rfl,
      ?_, ?_, ?_⟩
    · rw [estep]
      exact eF
    · -- frame
      intro dd ss H
      have H0 := H 0 (by omega)
      simp only [Nat.cast_zero, add_zero] at H0
      have Hshift : ∀ j : Nat, (j : Int) < secEnd - (raid_i + 1) →
          ¬(dd = dataDrive vol.devices (raid_i + 1 + (j : Int)) ∧
            ss = dataSec vol.devices (raid_i + 1 + (j : Int))) ∧
          ¬(dd = parityDrive vol.devices (raid_i + 1 + (j : Int)) ∧
            ss = dataSec vol.devices (raid_i + 1 + (j : Int))) := by
        intro j hj
        have := H (j + 1) (by push_cast; omega)
        rw [cast_succ_shift] at this
        exact this
      rw [hframeF dd ss Hshift]
      dsimp only
      rw [if_neg H0.2, if_neg H0.1]
    · -- data positions
      intro j hj
      cases j with
      | zero =>
        simp only [Nat.cast_zero, add_zero]
        have Havoid : ∀ j : Nat, (j : Int) < secEnd - (raid_i + 1) →
            ¬(dataDrive vol.devices raid_i =
                dataDrive vol.devices (raid_i + 1 + (j : Int)) ∧
              dataSec vol.devices raid_i =
                dataSec vol.devices (raid_i + 1 + (j : Int))) ∧
            ¬(dataDrive vol.devices raid_i =
                parityDrive vol.devices (raid_i + 1 + (j : Int)) ∧
              dataSec vol.devices raid_i =
                dataSec vol.devices (raid_i + 1 + (j : Int))) := by
          intro j hj2
          constructor
          · exact dataPos_inj_int vol.devices (by omega) hi0 (by omega) (by omega)
          · exact dataPos_ne_parityPos_int vol.devices (by omega) hi0 (by omega)
        rw [hframeF _ _ Havoid]
        dsimp only
        rw [if_neg (fun hc => hdp hc.1), if_pos ⟨rfl, rfl⟩, headD_getD_sector]
      | succ j =>
        have := hdataF j (by push_cast at hj ⊢; omega)
        rw [getD_tail_sector] at this
        rw [cast_succ_shift]
        exact this
    · -- rows
      intro r hcase
      have hp0b := parityDrive_bounds vol.devices raid_i (by omega) hi0
      by_cases hrs : r = dataSec vol.devices raid_i
      · subst hrs
        apply hrowsF
        left
        have hclean : xorFoldRange
            (fun dd : Nat =>
              ({ dsk with
                  contents := fun d s =>
                    if d = parityDrive vol.devices raid_i ∧
                        s = dataSec vol.devices raid_i
                    then rowXorExcept
                      { dsk with
                          contents := fun d2 s2 =>
                            if d2 = dataDrive vol.devices raid_i ∧
                                s2 = dataSec vol.devices raid_i
                            then payload.headD zeroSector else dsk.contents d2 s2 }
                      vol.devices.toNat (parityDrive vol.devices raid_i)
                      (dataSec vol.devices raid_i)
                    else if d = dataDrive vol.devices raid_i ∧
                        s = dataSec vol.devices raid_i
                    then payload.headD zeroSector
                    else dsk.contents d s,
                  trace := tr3 } : DiskState).contents (dd : Int)
                (dataSec vol.devices raid_i)) 0 vol.devices.toNat =
            xorFoldRange
            (fun dd : Nat =>
              if (dd : Int) = parityDrive vol.devices raid_i
              then rowXorExcept
                { dsk with
                    contents := fun d2 s2 =>
                      if d2 = dataDrive vol.devices raid_i ∧
                          s2 = dataSec vol.devices raid_i
                      then payload.headD zeroSector else dsk.contents d2 s2 }
                vol.devices.toNat (parityDrive vol.devices raid_i)
                (dataSec vol.devices raid_i)
              else if (dd : Int) = dataDrive vol.devices raid_i
              then payload.headD zeroSector
              else dsk.contents (dd : Int) (dataSec vol.devices raid_i))
            0 vol.devices.toNat := by
          apply xfr_congr
          intro dd _ _
          dsimp only
          by_cases h1 : (dd : Int) = parityDrive vol.devices raid_i
          · rw [if_pos ⟨h1, rfl⟩, if_pos h1]
          · rw [if_neg (fun hc => h1 hc.1), if_neg h1]
            by_cases h2 : (dd : Int) = dataDrive vol.devices raid_i
            · rw [if_pos ⟨h2, rfl⟩, if_pos h2]
            · rw [if_neg (fun hc => h2 hc.1), if_neg h2]
        rw [hclean]
        rw [xfr_extract _ (parityDrive vol.devices raid_i).toNat 0 vol.devices.toNat
          (Nat.zero_le _) (by omega)]
        have hcast : ((parityDrive vol.devices raid_i).toNat : Int) =
            parityDrive vol.devices raid_i := by omega
        rw [if_pos hcast]
        have hmask : xorFoldRange
            (fun dd : Nat =>
              if dd = (parityDrive vol.devices raid_i).toNat then zeroSector
              else if (dd : Int) = parityDrive vol.devices raid_i
              then rowXorExcept
                { dsk with
                    contents := fun d2 s2 =>
                      if d2 = dataDrive vol.devices raid_i ∧
                          s2 = dataSec vol.devices raid_i
                      then payload.headD zeroSector else dsk.contents d2 s2 }
                vol.devices.toNat (parityDrive vol.devices raid_i)
                (dataSec vol.devices raid_i)
              else if (dd : Int) = dataDrive vol.devices raid_i
              then payload.headD zeroSector
              else dsk.contents (dd : Int) (dataSec vol.devices raid_i))
            0 vol.devices.toNat =
            rowXorExcept
              { dsk with
                  contents := fun d2 s2 =>
                    if d2 = dataDrive vol.devices raid_i ∧
                        s2 = dataSec vol.devices raid_i
                    then payload.headD zeroSector else dsk.contents d2 s2 }
              vol.devices.toNat (parityDrive vol.devices raid_i)
              (dataSec vol.devices raid_i) := by
          rw [rowXorExcept]
          apply xfr_congr
          intro dd _ _
          by_cases h1 : (dd : Int) = parityDrive vol.devices raid_i
          · rw [if_pos (by omega : dd = (parityDrive vol.devices raid_i).toNat),
              if_pos h1]
          · rw [if_neg (by omega : ¬ dd = (parityDrive vol.devices raid_i).toNat),
              if_neg h1, if_neg h1]
            dsimp only
            by_cases h2 : (dd : Int) = dataDrive vol.devices raid_i
            · rw [if_pos h2, if_pos ⟨h2, rfl⟩]
            · rw [if_neg h2, if_neg (fun hc => h2 hc.1)]
        rw [hmask, xib_self]
      · rcases hcase with h0 | ⟨j, hj, hrj⟩
        · apply hrowsF
          left
          have hsame : xorFoldRange
              (fun dd : Nat =>
                ({ dsk with
                    contents := fun d s =>
                      if d = parityDrive vol.devices raid_i ∧
                          s = dataSec vol.devices raid_i
                      then rowXorExcept
                        { dsk with
                            contents := fun d2 s2 =>
                              if d2 = dataDrive vol.devices raid_i ∧
                                  s2 = dataSec vol.devices raid_i
                              then payload.headD zeroSector else dsk.contents d2 s2 }
                        vol.devices.toNat (parityDrive vol.devices raid_i)
                        (dataSec vol.devices raid_i)
                      else if d = dataDrive vol.devices raid_i ∧
                          s = dataSec vol.devices raid_i
                      then payload.headD zeroSector
                      else dsk.contents d s,
                    trace := tr3 } : DiskState).contents (dd : Int) r) 0
              vol.devices.toNat =
              xorFoldRange (fun dd : Nat => dsk.contents (dd : Int) r) 0
                vol.devices.toNat := by
            apply xfr_congr
            intro dd _ _
            dsimp only
            rw [if_neg (fun hc => hrs hc.2), if_neg (fun hc => hrs hc.2)]
          rw [hsame]
          exact h0
        · cases j with
          | zero =>
            simp only [Nat.cast_zero, add_zero] at hrj
            exact absurd hrj hrs
          | succ j =>
            apply hrowsF
            right
            refine ⟨j, by push_cast at hj ⊢; omega, ?_⟩
            rw [cast_succ_shift] at hrj
            exact hrj
  · refine ⟨dsk, ?_, fun _ => rfl, fun _ => rfl, fun _ _ _ => rfl, ?_, ?_⟩
    · rw [writeLoop, dif_neg h]
    · intro j hj
      exact absurd hj (by omega)
    · intro r hcase
      rcases hcase with h0 | ⟨j, hj, _⟩
      · exact h0
      · exact absurd hj (by omega)
termination_by (secEnd - raid_i).toNat
decreasing_by
  omega

theorem readOutN_from_getD (dsk : DiskState) (D : Int) :
    ∀ (k : Nat) (start : Int) (payload : List Sector),
      payload.length = k →
      (∀ j : Nat, j < k →
        dsk.contents (dataDrive D (start + (j : Int))) (dataSec D (start + (j : Int))) =
          payload.getD j zeroSector) →
      readOutN dsk D start k = payload := by
  intro k
  induction k with
  | zero =>
    intro start payload hlen _
    cases payload with
    | nil => rfl
    | cons p rest => simp at hlen
  | succ k ih =>
    intro start payload hlen hpos
    cases payload with
    | nil => simp at hlen
    | cons p rest =>
      rw [readOutN]
      congr 1
      · have h0 := hpos 0 (by omega)
        simpa using h0
      · refine ih (start + 1) rest (by simpa using hlen) ?_
        intro j hj
        have := hpos (j + 1) (by omega)
        rw [cast_succ_shift] at this
        simpa [List.getD_cons_succ] using this

/-! ### Claim C1 -/

/-- Counterexample to C1 as stated: on the freshly started healthy 3-device
volume (L = 4094) with every device operation succeeding, the full-length
write with start = 0, count = L - a valid request by the claim's own bounds
start ≥ 0, count ≥ 0, start + count ≤ L - returns false: the pre-check
rejects secCnt > m_raid_size - 1, i.e. any count of L or more. -/
theorem C1_full_length_write_rejected :
    wVolOK.write wDiskZero 0 (List.replicate 4094 zeroSector) 4094 false =
      (false, wVolOK, wDiskZero) := by
  rw [CRaidVolume.write, if_pos]
  right
  right
  left
  norm_num [wVolOK]

/-- C1 amended: on a started volume in OK status with all device operations
succeeding, for every start ≥ 0, count ≥ 0 with start + count ≤ L and
additionally count ≤ L - 1 (the pre-check's bound, which the original claim
overlooks at count = L), write(start, payload, count) returns true and the
subsequent read(start, count) returns true with exactly the written payload. -/
theorem C1_roundtrip (vol : CRaidVolume) (dev : TBlkDev) (dsk : DiskState)
    (start count : Int) (payload : List Sector)
    (hdev : vol.m_dev = some dev)
    (hval : validate_t_blk_dev dev = true)
    (hst : vol.m_status = RAID_OK)
    (hsize : vol.m_raid_size = (dev.m_Devices - 1) * (dev.m_Sectors - 1))
    (hr : ∀ d : Int, dsk.readOk d = true) (hw : ∀ d : Int, dsk.writeOk d = true)
    (h0 : 0 ≤ start) (hc0 : 0 ≤ count)
    (hL : start + count ≤ vol.m_raid_size)
    (hcnt : count ≤ vol.m_raid_size - 1)
    (hlen : payload.length = count.toNat) :
    ∃ dsk', vol.write dsk start payload count false = (true, vol, dsk') ∧
      ∃ dsk2, vol.read dsk' start count false = (true, vol, dsk2, payload) := by
  have hD : 3 ≤ vol.devices := by
    have := (validate_true_iff dev).mp hval
    simp only [CRaidVolume.devices, hdev, Option.getD_some]
    omega
  have hnf : ¬ (false = true ∨ count < 0 ∨ count > vol.m_raid_size - 1 ∨
      vol.m_status = RAID_FAILED) := by
    rw [hst]
    push_neg
    refine ⟨by simp, by omega, by omega, by norm_num [RAID_OK, RAID_FAILED]⟩
  obtain ⟨dskF, eF, hrkF, hwkF, hframeF, hdataF, hrowsF⟩ :=
    writeLoop_ok vol (start + count) start dsk payload hst hr hw hD h0 hL
  refine ⟨dskF, ?_, ?_⟩
  · rw [CRaidVolume.write, if_neg hnf]
    exact eF
  · obtain ⟨tr, eR⟩ := readLoop_ok vol (start + count) start dskF []
      hst (fun d => (hrkF d).trans (hr d)) hL
    refine ⟨{ dskF with trace := tr }, ?_⟩
    rw [CRaidVolume.read, if_neg hnf, eR]
    have hk : (start + count - start).toNat = count.toNat := by omega
    rw [hk]
    rw [readOutN_from_getD dskF vol.devices count.toNat start payload hlen ?_]
    · rfl
    · intro j hj
      exact hdataF j (by omega)

/-- Witness for the amended C1: a two-sector write plus read-back at
start = 1 on the healthy started 3-device volume. -/
theorem C1_roundtrip_witness :
    (wVolOK.m_dev = some wDev3 ∧ wVolOK.m_status = RAID_OK ∧ (0:Int) ≤ 1 ∧
      (0:Int) ≤ 2 ∧ (1:Int) + 2 ≤ wVolOK.m_raid_size ∧
      (2:Int) ≤ wVolOK.m_raid_size - 1 ∧
      ([⟨5, 6⟩, ⟨7, 8⟩] : List Sector).length = (2:Int).toNat) ∧
    (∃ dsk', wVolOK.write wDiskZero 1 [⟨5, 6⟩, ⟨7, 8⟩] 2 false = (true, wVolOK, dsk') ∧
      ∃ dsk2, wVolOK.read dsk' 1 2 false = (true, wVolOK, dsk2, [⟨5, 6⟩, ⟨7, 8⟩])) :=
  ⟨⟨rfl, rfl, by norm_num, by norm_num, by norm_num [wVolOK], by norm_num [wVolOK], rfl⟩,
   C1_roundtrip wVolOK wDev3 wDiskZero 1 2 [⟨5, 6⟩, ⟨7, 8⟩] rfl (by decide) rfl
     (by norm_num [wVolOK, wDev3]) (fun d => rfl) (fun d => rfl) (by norm_num)
     (by norm_num) (by norm_num [wVolOK]) (by norm_num [wVolOK]) rfl⟩

/-! ### Claim C7 -/

/-- C7: the parity invariant - every stripe row r in [0, S-1) has the xor of
the D sectors at device-sector r across all devices equal to the zero buffer.
It holds after create-then-start on a fresh all-zero device set, and every
write performed in OK status whose device operations all succeed returns
true and preserves it. -/
theorem C7_parity_invariant (dev : TBlkDev) (dsk0 : DiskState) (vol0 : CRaidVolume)
    (hval : validate_t_blk_dev dev = true)
    (hzero : ∀ d s : Int, dsk0.contents d s = zeroSector)
    (hflags : ∀ d : Int, dsk0.readOk d = true)
    (hwflags : ∀ d : Int, dsk0.writeOk d = true)
    (hvol0 : vol0.m_dev = none) :
    ((CRaidVolume.create dev dsk0).1 = true ∧
     (vol0.start dev (CRaidVolume.create dev dsk0).2).1 = RAID_OK ∧
     (∀ r : Int, 0 ≤ r → r < dev.m_Sectors - 1 →
       xorFoldRange (fun dd =>
         ((vol0.start dev (CRaidVolume.create dev dsk0).2).2.2).contents (dd : Int) r)
         0 dev.m_Devices.toNat = zeroSector)) ∧
    (∀ (vol : CRaidVolume) (dsk : DiskState) (start count : Int)
        (payload : List Sector),
      vol.m_dev = some dev → vol.m_status = RAID_OK →
      (∀ d : Int, dsk.readOk d = true) → (∀ d : Int, dsk.writeOk d = true) →
      0 ≤ start → 0 ≤ count → start + count ≤ vol.m_raid_size →
      count ≤ vol.m_raid_size - 1 →
      (∀ r : Int, 0 ≤ r → r < dev.m_Sectors - 1 →
        xorFoldRange (fun dd => dsk.contents (dd : Int) r) 0 dev.m_Devices.toNat =
          zeroSector) →
      ∃ dsk', vol.write dsk start payload count false = (true, vol, dsk') ∧
        (∀ r : Int, 0 ≤ r → r < dev.m_Sectors - 1 →
          xorFoldRange (fun dd => dsk'.contents (dd : Int) r) 0 dev.m_Devices.toNat =
            zeroSector)) := by
  constructor
  · obtain ⟨dsk1, e1, hwk1, hrk1, hc1⟩ := createLoop_all_ok dsk0 dev.m_Devices.toNat
      (dev.m_Sectors - 1) 0 hwflags
    have hcr : CRaidVolume.create dev dsk0 = (true, dsk1) := by
      rw [CRaidVolume.create, if_neg (by rw [hval]; simp), e1]
    have hD3 : 3 ≤ dev.m_Devices := ((validate_true_iff dev).mp hval).1
    have hstart := start_all_ok vol0 dev dsk1 0 hvol0 hval
      (fun d _ _ => (hrk1 d).trans (hflags d))
      (fun d h1 h2 => by
        rw [hc1 d (dev.m_Sectors - 1)]
        rw [if_pos ⟨by omega, by omega, rfl⟩])
      (by norm_num) (by norm_num)
    rw [hcr]
    dsimp only
    rw [hstart]
    refine ⟨rfl, rfl, ?_⟩
    intro r hr0 hrS
    dsimp only
    have : ∀ dd : Nat, dd < dev.m_Devices.toNat →
        dsk1.contents (dd : Int) r = zeroSector := by
      intro dd _
      rw [hc1, if_neg (by intro hcon; omega), hzero]
    calc xorFoldRange (fun dd => dsk1.contents (dd : Int) r) 0 dev.m_Devices.toNat
        = xorFoldRange (fun _ => zeroSector) 0 dev.m_Devices.toNat :=
          xfr_congr _ _ _ _ (fun dd _ hdd => this dd hdd)
      _ = zeroSector := xfr_zero _ _
  · intro vol dsk start count payload hdev hst hr hw h0 hc0 hL hcnt hinv
    have hD : 3 ≤ vol.devices := by
      have := (validate_true_iff dev).mp hval
      simp only [CRaidVolume.devices, hdev, Option.getD_some]
      omega
    have hdevs : vol.devices = dev.m_Devices := by
      simp [CRaidVolume.devices, hdev]
    have hnf : ¬ (false = true ∨ count < 0 ∨ count > vol.m_raid_size - 1 ∨
        vol.m_status = RAID_FAILED) := by
      rw [hst]
      push_neg
      refine ⟨by simp, by omega, by omega, by norm_num [RAID_OK, RAID_FAILED]⟩
    obtain ⟨dskF, eF, hrkF, hwkF, hframeF, hdataF, hrowsF⟩ :=
      writeLoop_ok vol (start + count) start dsk payload hst hr hw hD h0 hL
    refine ⟨dskF, ?_, ?_⟩
    · rw [CRaidVolume.write, if_neg hnf]
      exact eF
    · intro r hr0 hrS
      have := hrowsF r (Or.inl (by rw [hdevs]; exact hinv r hr0 hrS))
      rw [hdevs] at this
      exact this

/-- Witness for C7 at D = 3, S = 2048 from the all-zero disk. -/
theorem C7_parity_invariant_witness :
    (validate_t_blk_dev wDev3 = true ∧ wVol.m_dev = none) ∧
    (((CRaidVolume.create wDev3 wDiskZero).1 = true ∧
      (wVol.start wDev3 (CRaidVolume.create wDev3 wDiskZero).2).1 = RAID_OK ∧
      (∀ r : Int, 0 ≤ r → r < wDev3.m_Sectors - 1 →
        xorFoldRange (fun dd =>
          ((wVol.start wDev3 (CRaidVolume.create wDev3 wDiskZero).2).2.2).contents
            (dd : Int) r) 0 wDev3.m_Devices.toNat = zeroSector)) ∧
     (∀ (vol : CRaidVolume) (dsk : DiskState) (start count : Int)
         (payload : List Sector),
       vol.m_dev = some wDev3 → vol.m_status = RAID_OK →
       (∀ d : Int, dsk.readOk d = true) → (∀ d : Int, dsk.writeOk d = true) →
       0 ≤ start → 0 ≤ count → start + count ≤ vol.m_raid_size →
       count ≤ vol.m_raid_size - 1 →
       (∀ r : Int, 0 ≤ r → r < wDev3.m_Sectors - 1 →
         xorFoldRange (fun dd => dsk.contents (dd : Int) r) 0 wDev3.m_Devices.toNat =
           zeroSector) →
       ∃ dsk', vol.write dsk start payload count false = (true, vol, dsk') ∧
         (∀ r : Int, 0 ≤ r → r < wDev3.m_Sectors - 1 →
           xorFoldRange (fun dd => dsk'.contents (dd : Int) r) 0
             wDev3.m_Devices.toNat = zeroSector))) :=
  ⟨⟨by decide, rfl⟩,
   C7_parity_invariant wDev3 wDiskZero wVol (by decide) (fun _ _ => rfl)
     (fun _ => rfl) (fun _ => rfl) rfl⟩

/-! ### Claim C2 -/

/-- C2: on a DEGRADED volume with exactly one failed device k (all its
operations failing, all other devices healthy), a single-sector write at any
valid start returns true and the subsequent single-sector read returns true
with the written payload - whether k holds the data sector, the parity
sector, or is a third device of the stripe. -/
theorem C2_degraded_roundtrip (vol : CRaidVolume) (dev : TBlkDev) (dsk : DiskState)
    (start : Int) (v : Sector) (k : Int)
    (hdev : vol.m_dev = some dev)
    (hval : validate_t_blk_dev dev = true)
    (hst : vol.m_status = RAID_DEGRADED)
    (hfd : vol.m_failed_drive_i = k)
    (hk0 : 0 ≤ k) (hkD : k < dev.m_Devices)
    (hsize : vol.m_raid_size = (dev.m_Devices - 1) * (dev.m_Sectors - 1))
    (hdead_r : dsk.readOk k = false) (hdead_w : dsk.writeOk k = false)
    (hlive_r : ∀ d : Int, d ≠ k → dsk.readOk d = true)
    (hlive_w : ∀ d : Int, d ≠ k → dsk.writeOk d = true)
    (h0 : 0 ≤ start) (hL : start + 1 ≤ vol.m_raid_size) :
    ∃ dsk', vol.write dsk start [v] 1 false = (true, vol, dsk') ∧
      ∃ dsk2 out, vol.read dsk' start 1 false = (true, vol, dsk2, out) ∧ out = [v] := by
  have hb := (validate_true_iff dev).mp hval
  have hD : 3 ≤ vol.devices := by
    simp only [CRaidVolume.devices, hdev, Option.getD_some]
    omega
  have hsz2 : 2 ≤ vol.m_raid_size := by
    rw [hsize]
    have h1 : (2 : Int) * 1 ≤ (dev.m_Devices - 1) * (dev.m_Sectors - 1) :=
      mul_le_mul (by omega) (by omega) (by omega) (by omega)
    omega
  have hnf : ¬ (false = true ∨ (1:Int) < 0 ∨ (1:Int) > vol.m_raid_size - 1 ∨
      vol.m_status = RAID_FAILED) := by
    rw [hst]
    push_neg
    refine ⟨by simp, by omega, by omega, by norm_num [RAID_DEGRADED, RAID_FAILED]⟩
  have hdp : dataDrive vol.devices start ≠ parityDrive vol.devices start :=
    dataDrive_ne_parityDrive vol.devices start (by omega) h0
  have hd0b := dataDrive_bounds vol.devices start (by omega) h0
  have hp0b := parityDrive_bounds vol.devices start (by omega) h0
  by_cases hkd : k = dataDrive vol.devices start
  · -- dead data drive: only the parity sector is rewritten, the read
    -- reconstructs the payload from it
    obtain ⟨tr1, ex1⟩ := xor_parity_loop_ok dsk vol.devices.toNat
      (parityDrive vol.devices start) (dataDrive vol.devices start) v
      (dataSec vol.devices start) 0 zeroSector
      (fun d _ _ _ hne => hlive_r d (by omega))
    have hpwk : dsk.writeOk (parityDrive vol.devices start) = true :=
      hlive_w _ (by rw [hkd]; exact fun hc => hdp hc.symm)
    have ew : vol.write dsk start [v] 1 false =
        (true, vol,
         { dsk with
            contents := fun d s =>
              if d = parityDrive vol.devices start ∧ s = dataSec vol.devices start
              then xorFoldRange
                (fun dd => if (dd : Int) = parityDrive vol.devices start then zeroSector
                  else if (dd : Int) = dataDrive vol.devices start then v
                  else dsk.contents (dd : Int) (dataSec vol.devices start))
                0 vol.devices.toNat
              else dsk.contents d s,
            trace := (true, parityDrive vol.devices start, dataSec vol.devices start) ::
              tr1 }) := by
      rw [CRaidVolume.write, if_neg hnf]
      rw [writeLoop, dif_pos (by omega), dif_neg (by omega)]
      dsimp only
      simp only [fst_rstp, sndfst_rstp, sndsnd_rstp, List.headD_cons, List.tail_cons]
      rw [if_pos ⟨hst, by rw [hfd, hkd]⟩]
      rw [xor_get_parity_supplement_dead_sector, ex1]
      dsimp only
      rw [if_neg (show ¬ (0:Int) ≤ -1 by norm_num), xib_zero_left]
      rw [devWrite, if_pos hpwk]
      dsimp only
      rw [writeLoop, dif_neg (by omega)]
    refine ⟨_, ew, ?_⟩
    obtain ⟨tr2, ex2⟩ := xor_read_loop_ok
      { dsk with
         contents := fun d s =>
           if d = parityDrive vol.devices start ∧ s = dataSec vol.devices start
           then xorFoldRange
             (fun dd => if (dd : Int) = parityDrive vol.devices start then zeroSector
               else if (dd : Int) = dataDrive vol.devices start then v
               else dsk.contents (dd : Int) (dataSec vol.devices start))
             0 vol.devices.toNat
           else dsk.contents d s,
         trace := (true, parityDrive vol.devices start, dataSec vol.devices start) ::
           tr1 }
      vol.devices.toNat (dataDrive vol.devices start) (dataSec vol.devices start) 0
      zeroSector
      (fun d _ _ hne => hlive_r d (by omega))
    have ALG : xor_int_buffers zeroSector
        (xorFoldRange (fun dd =>
          if (dd : Int) = dataDrive vol.devices start then zeroSector
          else ({ dsk with
              contents := fun d s =>
                if d = parityDrive vol.devices start ∧ s = dataSec vol.devices start
                then xorFoldRange
                  (fun dd2 => if (dd2 : Int) = parityDrive vol.devices start
                    then zeroSector
                    else if (dd2 : Int) = dataDrive vol.devices start then v
                    else dsk.contents (dd2 : Int) (dataSec vol.devices start))
                  0 vol.devices.toNat
                else dsk.contents d s,
              trace := (true, parityDrive vol.devices start,
                dataSec vol.devices start) :: tr1 } : DiskState).contents (dd : Int)
            (dataSec vol.devices start)) 0 vol.devices.toNat) = v := by
      rw [xib_zero_left]
      have hclean : xorFoldRange (fun dd =>
          if (dd : Int) = dataDrive vol.devices start then zeroSector
          else ({ dsk with
              contents := fun d s =>
                if d = parityDrive vol.devices start ∧ s = dataSec vol.devices start
                then xorFoldRange
                  (fun dd2 => if (dd2 : Int) = parityDrive vol.devices start
                    then zeroSector
                    else if (dd2 : Int) = dataDrive vol.devices start then v
                    else dsk.contents (dd2 : Int) (dataSec vol.devices start))
                  0 vol.devices.toNat
                else dsk.contents d s,
              trace := (true, parityDrive vol.devices start,
                dataSec vol.devices start) :: tr1 } : DiskState).contents (dd : Int)
            (dataSec vol.devices start)) 0 vol.devices.toNat =
          xorFoldRange (fun dd =>
            if (dd : Int) = dataDrive vol.devices start then zeroSector
            else if (dd : Int) = parityDrive vol.devices start
            then xorFoldRange
              (fun dd2 => if (dd2 : Int) = parityDrive vol.devices start then zeroSector
                else if (dd2 : Int) = dataDrive vol.devices start then v
                else dsk.contents (dd2 : Int) (dataSec vol.devices start))
              0 vol.devices.toNat
            else dsk.contents (dd : Int) (dataSec vol.devices start))
            0 vol.devices.toNat := by
        apply xfr_congr
        intro dd _ _
        dsimp only
        split_ifs <;> first | rfl | omega
      rw [hclean]
      rw [xfr_extract _ (parityDrive vol.devices start).toNat 0 vol.devices.toNat
        (Nat.zero_le _) (by omega)]
      rw [if_neg (by omega : ¬ (((parityDrive vol.devices start).toNat : Nat) : Int) =
        dataDrive vol.devices start)]
      rw [if_pos (by omega : (((parityDrive vol.devices start).toNat : Nat) : Int) =
        parityDrive vol.devices start)]
      have hmask : xorFoldRange (fun dd =>
          if dd = (parityDrive vol.devices start).toNat then zeroSector
          else if (dd : Int) = dataDrive vol.devices start then zeroSector
          else if (dd : Int) = parityDrive vol.devices start
          then xorFoldRange
            (fun dd2 => if (dd2 : Int) = parityDrive vol.devices start then zeroSector
              else if (dd2 : Int) = dataDrive vol.devices start then v
              else dsk.contents (dd2 : Int) (dataSec vol.devices start))
            0 vol.devices.toNat
          else dsk.contents (dd : Int) (dataSec vol.devices start)) 0
          vol.devices.toNat =
          xorFoldRange (fun dd =>
            if (dd : Int) = parityDrive vol.devices start then zeroSector
            else if (dd : Int) = dataDrive vol.devices start then zeroSector
            else dsk.contents (dd : Int) (dataSec vol.devices start)) 0
            vol.devices.toNat := by
        apply xfr_congr
        intro dd _ _
        dsimp only
        split_ifs <;> first | rfl | omega
      rw [hmask]
      have hq : xorFoldRange
          (fun dd2 => if (dd2 : Int) = parityDrive vol.devices start then zeroSector
            else if (dd2 : Int) = dataDrive vol.devices start then v
            else dsk.contents (dd2 : Int) (dataSec vol.devices start))
          0 vol.devices.toNat =
          xor_int_buffers v
            (xorFoldRange (fun dd =>
              if (dd : Int) = parityDrive vol.devices start then zeroSector
              else if (dd : Int) = dataDrive vol.devices start then zeroSector
              else dsk.contents (dd : Int) (dataSec vol.devices start)) 0
              vol.devices.toNat) := by
        rw [xfr_extract _ (dataDrive vol.devices start).toNat 0 vol.devices.toNat
          (Nat.zero_le _) (by omega)]
        rw [if_neg (by omega : ¬ (((dataDrive vol.devices start).toNat : Nat) : Int) =
          parityDrive vol.devices start)]
        rw [if_pos (by omega : (((dataDrive vol.devices start).toNat : Nat) : Int) =
          dataDrive vol.devices start)]
        congr 1
        apply xfr_congr
        intro dd _ _
        dsimp only
        split_ifs <;> first | rfl | omega
      rw [hq, xib_assoc, xib_self, xib_zero_right]
    rw [CRaidVolume.read, if_neg hnf]
    rw [readLoop, dif_pos (by omega), dif_neg (by omega)]
    dsimp only
    simp only [fst_rstp, sndfst_rstp, sndsnd_rstp]
    rw [if_pos ⟨hst, by rw [hfd, hkd]⟩]
    rw [xor_read_without_sector, ex2]
    dsimp only
    rw [if_neg (show ¬ (0:Int) ≤ -1 by norm_num)]
    rw [readLoop, dif_neg (by omega)]
    refine ⟨_, _, rfl, ?_⟩
    rw [List.nil_append, ALG]
  · have hdk : dataDrive vol.devices start ≠ k := fun hc => hkd hc.symm
    have hfd_ne : vol.m_failed_drive_i ≠ dataDrive vol.devices start := by
      rw [hfd]
      exact fun hc => hkd hc
    have hnc1 : ¬ (vol.m_status = RAID_DEGRADED ∧
        vol.m_failed_drive_i = dataDrive vol.devices start) :=
      fun hc => hfd_ne hc.2
    by_cases hkp : k = parityDrive vol.devices start
    · -- dead parity drive: plain data write, plain read-back
      have ew : vol.write dsk start [v] 1 false =
          (true, vol,
           { dsk with
              contents := fun d s =>
                if d = dataDrive vol.devices start ∧ s = dataSec vol.devices start
                then v else dsk.contents d s,
              trace := (true, dataDrive vol.devices start, dataSec vol.devices start) ::
                dsk.trace }) := by
        rw [CRaidVolume.write, if_neg hnf]
        rw [writeLoop, dif_pos (by omega), dif_neg (by omega)]
        dsimp only
        simp only [fst_rstp, sndfst_rstp, sndsnd_rstp, List.headD_cons, List.tail_cons]
        rw [if_neg hnc1, if_pos ⟨hst, hfd_ne⟩, if_pos (by rw [hfd, hkp])]
        rw [devWrite, if_pos (hlive_w _ hdk)]
        dsimp only
        rw [writeLoop, dif_neg (by omega)]
      refine ⟨_, ew, ?_⟩
      rw [CRaidVolume.read, if_neg hnf]
      rw [readLoop, dif_pos (by omega), dif_neg (by omega)]
      dsimp only
      simp only [fst_rstp, sndfst_rstp, sndsnd_rstp]
      rw [if_neg hnc1, if_pos ⟨hst, hfd_ne⟩]
      rw [devRead, if_pos (hlive_r _ hdk)]
      dsimp only
      rw [readLoop, dif_neg (by omega)]
      refine ⟨_, _, rfl, ?_⟩
      rw [List.nil_append]
      rw [if_pos (show dataDrive vol.devices start = dataDrive vol.devices start ∧
        dataSec vol.devices start = dataSec vol.devices start from ⟨rfl, rfl⟩)]
    · -- third-party drive dead: reconstruct it, write data, rewrite parity
      have hpk : parityDrive vol.devices start ≠ k := fun hc => hkp hc.symm
      obtain ⟨tr1, ex1⟩ := xor_read_loop_ok dsk vol.devices.toNat k
        (dataSec vol.devices start) 0 zeroSector (fun d _ _ hne => hlive_r d hne)
      obtain ⟨tr2, ex2⟩ := xor_parity_loop_ok
        { dsk with
            contents := fun d s =>
              if d = dataDrive vol.devices start ∧ s = dataSec vol.devices start
              then v else dsk.contents d s,
            trace := (true, dataDrive vol.devices start, dataSec vol.devices start) ::
              tr1 }
        vol.devices.toNat (parityDrive vol.devices start) k
        (xor_int_buffers zeroSector
          (xorFoldRange (fun dd => if (dd : Int) = k then zeroSector
            else dsk.contents (dd : Int) (dataSec vol.devices start)) 0
            vol.devices.toNat))
        (dataSec vol.devices start) 0 zeroSector
        (fun d _ _ _ hne => hlive_r d hne)
      have ew : vol.write dsk start [v] 1 false =
          (true, vol,
           { dsk with
              contents := fun d2 s2 =>
                if d2 = parityDrive vol.devices start ∧
                    s2 = dataSec vol.devices start
                then xor_int_buffers zeroSector
                  (xorFoldRange
                    (fun dd => if (dd : Int) = parityDrive vol.devices start
                      then zeroSector
                      else if (dd : Int) = k
                      then xor_int_buffers zeroSector
                        (xorFoldRange (fun dd2 => if (dd2 : Int) = k then zeroSector
                          else dsk.contents (dd2 : Int) (dataSec vol.devices start)) 0
                          vol.devices.toNat)
                      else ({ dsk with
                          contents := fun d s =>
                            if d = dataDrive vol.devices start ∧
                                s = dataSec vol.devices start
                            then v else dsk.contents d s,
                          trace := (true, dataDrive vol.devices start,
                            dataSec vol.devices start) :: tr1 } : DiskState).contents
                        (dd : Int) (dataSec vol.devices start))
                    0 vol.devices.toNat)
                else if d2 = dataDrive vol.devices start ∧
                    s2 = dataSec vol.devices start
                then v else dsk.contents d2 s2,
              trace := (true, parityDrive vol.devices start,
                dataSec vol.devices start) :: tr2 }) := by
        rw [CRaidVolume.write, if_neg hnf]
        rw [writeLoop, dif_pos (by omega), dif_neg (by omega)]
        dsimp only
        simp only [fst_rstp, sndfst_rstp, sndsnd_rstp, List.headD_cons, List.tail_cons]
        rw [if_neg hnc1, if_pos ⟨hst, hfd_ne⟩,
          if_neg (by rw [hfd]; exact fun hc => hkp hc)]
        rw [hfd]
        rw [xor_read_without_sector, ex1]
        dsimp only
        rw [if_neg (show ¬ (0:Int) ≤ -1 by norm_num)]
        rw [devWrite, if_pos (hlive_w _ hdk)]
        dsimp only
        rw [xor_get_parity_supplement_dead_sector, ex2]
        dsimp only
        rw [if_neg (show ¬ (0:Int) ≤ -1 by norm_num)]
        rw [devWrite, if_pos (hlive_w _ hpk)]
        dsimp only
        rw [writeLoop, dif_neg (by omega)]
        simp
      refine ⟨_, ew, ?_⟩
      rw [CRaidVolume.read, if_neg hnf]
      rw [readLoop, dif_pos (by omega), dif_neg (by omega)]
      dsimp only
      simp only [fst_rstp, sndfst_rstp, sndsnd_rstp]
      rw [if_neg hnc1, if_pos ⟨hst, hfd_ne⟩]
      rw [devRead, if_pos (hlive_r _ hdk)]
      dsimp only
      rw [readLoop, dif_neg (by omega)]
      refine ⟨_, _, rfl, ?_⟩
      rw [List.nil_append]
      rw [if_neg (show ¬ (dataDrive vol.devices start = parityDrive vol.devices start ∧
        dataSec vol.devices start = dataSec vol.devices start) from fun hc => hdp hc.1)]
      rw [if_pos (show dataDrive vol.devices start = dataDrive vol.devices start ∧
        dataSec vol.devices start = dataSec vol.devices start from ⟨rfl, rfl⟩)]

/-- Witness for C2 at a concrete degraded configuration: D=3, S=2048, device 0
dead, single-sector round trip at raid sector 1 with payload (9, 10). -/
theorem C2_degraded_roundtrip_witness :
    (wVolDeg.m_status = RAID_DEGRADED ∧ wVolDeg.m_failed_drive_i = 0 ∧
      wDiskD0Dead.readOk 0 = false ∧ wDiskD0Dead.writeOk 0 = false ∧
      (1:Int) + 1 ≤ wVolDeg.m_raid_size) ∧
    (∃ dsk', wVolDeg.write wDiskD0Dead 1 [⟨9, 10⟩] 1 false = (true, wVolDeg, dsk') ∧
      ∃ dsk2 out, wVolDeg.read dsk' 1 1 false = (true, wVolDeg, dsk2, out) ∧
        out = [⟨9, 10⟩]) :=
  ⟨⟨rfl, rfl, by decide, by decide, by decide⟩,
   C2_degraded_roundtrip wVolDeg wDev3 wDiskD0Dead 1 ⟨9, 10⟩ 0 rfl (by decide) rfl rfl
     (by decide) (by decide) (by decide) (by decide) (by decide)
     (fun d hd => by simp [wDiskD0Dead, mkDisk, hd])
     (fun d hd => by simp [wDiskD0Dead, mkDisk, hd])
     (by decide) (by decide)⟩

/-! ### Claim C4 -/

/-- Counterexample to C4 as stated: with count = 0 and start = 4095 past the
end of the 4094-sector array (start + count > L), read returns true, because
the pre-check only compares count against L - 1 and the loop body never runs.
The same call shape on write also returns true. -/
theorem C4_zero_count_out_of_range_true :
    wVolOK.read wDiskZero 4095 0 false = (true, wVolOK, wDiskZero, []) ∧
    wVolOK.write wDiskZero 4095 [] 0 false = (true, wVolOK, wDiskZero) := by
  constructor
  · rw [CRaidVolume.read, if_neg (by decide), readLoop, dif_neg (by norm_num)]
  · rw [CRaidVolume.write, if_neg (by decide), writeLoop, dif_neg (by norm_num)]

/-- C4 (amended): read and write return false with the volume and disk
untouched whenever count < 0, or count exceeds L - 1, or count is positive
and the whole range starts at or past L.  (The original claim's remaining
region - count = 0 with start past the end, and positive count straddling
the end - is not rejected up front: count = 0 returns true, and a
straddling write performs the in-range device writes before failing.) -/
theorem C4_bounds (vol : CRaidVolume) (dsk : DiskState) (start count : Int)
    (payload : List Sector)
    (h : count < 0 ∨ count > vol.m_raid_size - 1 ∨
      (1 ≤ count ∧ vol.m_raid_size ≤ start)) :
    vol.read dsk start count false = (false, vol, dsk, []) ∧
    vol.write dsk start payload count false = (false, vol, dsk) := by
  rcases h with hc | hc | ⟨h1, h2⟩
  · constructor
    · rw [CRaidVolume.read, if_pos (Or.inr (Or.inl hc))]
    · rw [CRaidVolume.write, if_pos (Or.inr (Or.inl hc))]
  · constructor
    · rw [CRaidVolume.read, if_pos (Or.inr (Or.inr (Or.inl hc)))]
    · rw [CRaidVolume.write, if_pos (Or.inr (Or.inr (Or.inl hc)))]
  · constructor
    · by_cases hp : (false = true ∨ count < 0 ∨ count > vol.m_raid_size - 1 ∨
        vol.m_status = RAID_FAILED)
      · rw [CRaidVolume.read, if_pos hp]
      · rw [CRaidVolume.read, if_neg hp, readLoop, dif_pos (by omega), dif_pos h2]
    · by_cases hp : (false = true ∨ count < 0 ∨ count > vol.m_raid_size - 1 ∨
        vol.m_status = RAID_FAILED)
      · rw [CRaidVolume.write, if_pos hp]
      · rw [CRaidVolume.write, if_neg hp, writeLoop, dif_pos (by omega), dif_pos h2]

/-- Witness for C4 at a concrete out-of-range request: start = L = 4094 with
count = 1 on the healthy started volume. -/
theorem C4_bounds_witness :
    ((1:Int) ≤ 1 ∧ wVolOK.m_raid_size ≤ 4094) ∧
    (wVolOK.read wDiskZero 4094 1 false = (false, wVolOK, wDiskZero, []) ∧
     wVolOK.write wDiskZero 4094 [⟨1, 2⟩] 1 false = (false, wVolOK, wDiskZero)) :=
  ⟨⟨by decide, by decide⟩,
   C4_bounds wVolOK wDiskZero 4094 1 [⟨1, 2⟩] (Or.inr (Or.inr ⟨by decide, by decide⟩))⟩
